import Mathlib

/-
  Verification development for the multi-target dispatch and
  response-normalization core of the Puter multi-LLM chat console.

  The embedding models:
  * a JavaScript value universe (`JSValue`) with the semantics the source
    relies on: truthiness, `typeof`, property access, `Array.isArray`,
    the inherited `toString` conversion, and `Array.prototype.join`;
  * the response normalizer `extractContentFromResponse`
    (js/puterChatManager.js lines 185-214; the copy in
    puterSingleChatManager.js lines 358-387 is textually identical);
  * the content extraction of `displayChatResponse`
    (js/puterChatManager.js lines 333-404);
  * the per-model dispatcher `sendMessageToModel` and the fan-out
    coordinator `sendMessageToAllModels` (js/puterChatManager.js),
    with the hosted gateway `puter.ai.chat` abstracted as an oracle
    giving the result of each of the four call shapes the code makes;
  * the focused-chat session `PuterSingleChatManager` (sendMessage,
    handleModelChange, clearChat, handleStreamingResponse).

  Function values are outside the value universe: an own `toString`
  field of a modelled object is a data value and hence not callable,
  while every non-null, non-undefined value without such a field has the
  inherited callable `toString` from its prototype.  Exceptions are
  modelled explicitly: the `ToString` conversion (`String(v)`, `+=`,
  `Array.prototype.join`) raises `TypeError` on an object whose own
  `toString` shadows the prototype with a non-callable value, so the
  normalizer returns `Except`; and rendering a message runs
  `formatContent(content)`, which raises `TypeError` on truthy
  non-string content, sending the enclosing dispatcher into its outer
  catch.
-/

/-- A JavaScript runtime value, as far as the chat core inspects values:
strings, numbers (the payloads in the claims are integers), booleans,
`null`, `undefined`, arrays and plain objects (ordered field lists). -/
inductive JSValue : Type where
  | str : String → JSValue
  | num : Int → JSValue
  | boolean : Bool → JSValue
  | null : JSValue
  | undefined : JSValue
  | arr : List JSValue → JSValue
  | obj : List (String × JSValue) → JSValue

namespace JSValue

/-- JavaScript truthiness: `""`, `0`, `false`, `null`, `undefined` are
falsy; every array and object is truthy. -/
def truthy : JSValue → Bool
  | .str s => !(s == "")
  | .num n => !(n == 0)
  | .boolean b => b
  | .null => false
  | .undefined => false
  | .arr _ => true
  | .obj _ => true

/-- `typeof v` as a string.  `typeof null` is `"object"` in JavaScript. -/
def typeofStr : JSValue → String
  | .str _ => "string"
  | .num _ => "number"
  | .boolean _ => "boolean"
  | .null => "object"
  | .undefined => "undefined"
  | .arr _ => "object"
  | .obj _ => "object"

/-- Property access `v?.key` (and `v.key` where the source has already
checked the base): own field of an object, `undefined` otherwise.  The
source only reads named (non-index) properties this way, so arrays and
primitives yield `undefined`. -/
def get (v : JSValue) (key : String) : JSValue :=
  match v with
  | .obj fields =>
      match fields.find? (fun p => p.1 == key) with
      | some p => p.2
      | none => .undefined
  | _ => .undefined

/-- Index access `v[i]`: array element or `undefined`.  The source only
indexes values it expects to be arrays (`response[0]`,
`response.choices[0]`). -/
def idx (v : JSValue) (i : Nat) : JSValue :=
  match v with
  | .arr xs => xs.getD i .undefined
  | _ => .undefined

/-- `Array.isArray`. -/
def isArr : JSValue → Bool
  | .arr _ => true
  | _ => false

/-- Whether the value is a string primitive (`typeof v === "string"`). -/
def isStringV : JSValue → Bool
  | .str _ => true
  | _ => false

/-- The probe `response?.toString && typeof response.toString ===
"function"`.  `null`/`undefined` have no `toString`; an object with an
own `toString` field shadows the prototype with a data value, which is
not a function; every other value reaches the inherited callable
`toString`. -/
def hasCallableToString : JSValue → Bool
  | .null => false
  | .undefined => false
  | .obj fields => !(fields.any (fun p => p.1 == "toString"))
  | _ => true

/-- Strict equality against the string literal `"text"`
(`response[0]?.type === 'text'`). -/
def isTextTag : JSValue → Bool
  | .str s => s == "text"
  | _ => false

/-- Strict equality against `null` (`response !== null`). -/
def isNullV : JSValue → Bool
  | .null => true
  | _ => false

/-- Elements of an array value (used after an `Array.isArray` guard). -/
def elems : JSValue → List JSValue
  | .arr xs => xs
  | _ => []

/-- Own enumerable keys, `Object.keys`: field names of an object, index
strings of an array or string, nothing for other primitives. -/
def jsKeys : JSValue → List String
  | .obj fields => fields.map (fun p => p.1)
  | .arr xs => (List.range xs.length).map (fun i => toString i)
  | .str s => (List.range s.length).map (fun i => toString i)
  | _ => []

mutual

/-- The string conversion `String(v)` / `ToString` (also applied by
`+=` on a string and by `Array.prototype.join` to each element):
numbers print in decimal, a plain object gives `"[object Object]"`
through its inherited `toString`, and an array joins its elements with
`","` converting `null`/`undefined` elements to the empty string.  An
object that shadows `toString` with a non-callable own value has no
primitive conversion — its inherited `valueOf` returns the object
itself and the shadowed `toString` is not callable — so `ToString`
raises `TypeError: Cannot convert object to primitive value`.  The
conversion is therefore fallible. -/
def toStr : JSValue → Except String String
  | .str s => .ok s
  | .num n => .ok (toString n)
  | .boolean b => .ok (if b then "true" else "false")
  | .null => .ok "null"
  | .undefined => .ok "undefined"
  | .arr xs =>
      match joinParts xs with
      | .ok parts => .ok (String.intercalate "," parts)
      | .error e => .error e
  | .obj fields =>
      if fields.any (fun p => p.1 == "toString")
      then .error "Cannot convert object to primitive value"
      else .ok "[object Object]"

/-- Element conversions of `Array.prototype.join`: `null`/`undefined`
become the empty string, every other element goes through `ToString`
and its `TypeError` propagates out of the join. -/
def joinParts : List JSValue → Except String (List String)
  | [] => .ok []
  | JSValue.null :: rest =>
      match joinParts rest with
      | .ok parts => .ok ("" :: parts)
      | .error e => .error e
  | JSValue.undefined :: rest =>
      match joinParts rest with
      | .ok parts => .ok ("" :: parts)
      | .error e => .error e
  | v :: rest =>
      match toStr v with
      | .error e => .error e
      | .ok s =>
          match joinParts rest with
          | .ok parts => .ok (s :: parts)
          | .error e => .error e

end

end JSValue

/-- One item of the branch
`response.map(item => item.text || item.content || '')`: the `||`
chain selects a value without converting it; the conversion happens in
the subsequent `join('')`. -/
def mapItemValue (item : JSValue) : JSValue :=
  let t := item.get "text"
  if t.truthy then t
  else
    let c := item.get "content"
    if c.truthy then c else .str ""

/-- `extractContentFromResponse` (js/puterChatManager.js lines 185-214;
puterSingleChatManager.js lines 358-387 is an identical copy): the
response normalizer, transcribed branch for branch.  The function can
throw: the `toString()` call of branch 3 (for an array holding an
element with no primitive conversion) and the `join('')` of branch 4
propagate the conversion `TypeError`, so the embedding returns
`Except`. -/
def extractContentFromResponse (response : JSValue) : Except String JSValue :=
  if response.isStringV then
    .ok response
  else if ((response.get "message").get "content").truthy then
    .ok ((response.get "message").get "content")
  else if response.hasCallableToString then
    match response.toStr with
    | .ok s => .ok (.str s)
    | .error e => .error e
  else if response.isArr && ((response.idx 0).get "text").truthy then
    match JSValue.joinParts (response.elems.map mapItemValue) with
    | .ok parts => .ok (.str (String.join parts))
    | .error e => .error e
  else if response.isArr && ((response.idx 0).get "type").isTextTag
      && ((response.idx 0).get "text").truthy then
    .ok ((response.idx 0).get "text")
  else if (response.get "content").truthy then
    .ok (response.get "content")
  else if (response.get "text").truthy then
    .ok (response.get "text")
  else if (response.get "choices").truthy
      && ((((response.get "choices").idx 0).get "message").get "content").truthy then
    .ok ((((response.get "choices").idx 0).get "message").get "content")
  else if ((response.get "data").get "content").truthy then
    .ok ((response.get "data").get "content")
  else if ((response.get "data").get "text").truthy then
    .ok ((response.get "data").get "text")
  else if (response.get "message").truthy then
    .ok (response.get "message")
  else if (response.get "response").truthy then
    .ok (response.get "response")
  else
    .ok (.str ("Received response but could not extract text content. Response type: "
          ++ response.typeofStr))

mutual

/-- One entry of the `flattenObject` loop in `displayChatResponse`
(js/puterChatManager.js lines 382-392): a non-empty string value is
collected as `"<prefix><key>: <value>"`, a non-null object value is
flattened recursively with `"<prefix><key>."`, everything else is
skipped. -/
def flattenEntry (pre k : String) : JSValue → List String
  | JSValue.str s => if s == "" then [] else [pre ++ k ++ ": " ++ s]
  | JSValue.obj fields => flattenFields (pre ++ k ++ ".") fields
  | JSValue.arr xs => flattenElems (pre ++ k ++ ".") 0 xs
  | _ => []

/-- `flattenObject` over the entries of an object. -/
def flattenFields (pre : String) : List (String × JSValue) → List String
  | [] => []
  | (k, v) :: rest => flattenEntry pre k v ++ flattenFields pre rest

/-- `flattenObject` over the (index, element) entries of an array
(`Object.entries` enumerates array indices as string keys). -/
def flattenElems (pre : String) (i : Nat) : List JSValue → List String
  | [] => []
  | v :: rest => flattenEntry pre (toString i) v ++ flattenElems pre (i + 1) rest

end

/-- `flattenObject(obj, prefix)` of `displayChatResponse`. -/
def flattenObject (pre : String) (v : JSValue) : List String :=
  match v with
  | .obj fields => flattenFields pre fields
  | .arr xs => flattenElems pre 0 xs
  | _ => []

/-- The unknown-response-format fallback of `displayChatResponse`
(js/puterChatManager.js lines 367-403): first any non-empty own string
property, then the flattened `key: value` lines, then a diagnostic
naming the object keys, and for non-objects a diagnostic naming the
runtime type and keys. -/
def unknownFormatContent (response : JSValue) : JSValue :=
  let keysOf := (if response.truthy then response else .obj []).jsKeys
  let stringProps := keysOf.filter (fun k =>
    (response.get k).isStringV && (response.get k).truthy)
  match stringProps with
  | k :: _ => response.get k
  | [] =>
      if response.typeofStr == "object" && !response.isNullV then
        let flattenedData := flattenObject "" response
        match flattenedData with
        | [] =>
            .str ("Received response object with keys: "
                  ++ String.intercalate ", " response.jsKeys
                  ++ ". Full response logged to console.")
        | _ =>
            .str (String.intercalate "\n" flattenedData)
      else
        .str ("Received response but could not extract text content. Response type: "
              ++ response.typeofStr ++ ". Keys: "
              ++ String.intercalate ", " keysOf)

/-- The content extraction of `displayChatResponse`
(js/puterChatManager.js lines 333-404): the same probe chain as
`extractContentFromResponse` — fallible through the same conversion
sites — with the richer unknown-format fallback (which only reads and
assembles strings, so it cannot throw). -/
def displayChatContent (response : JSValue) : Except String JSValue :=
  if response.isStringV then
    .ok response
  else if ((response.get "message").get "content").truthy then
    .ok ((response.get "message").get "content")
  else if response.hasCallableToString then
    match response.toStr with
    | .ok s => .ok (.str s)
    | .error e => .error e
  else if response.isArr && ((response.idx 0).get "text").truthy then
    match JSValue.joinParts (response.elems.map mapItemValue) with
    | .ok parts => .ok (.str (String.join parts))
    | .error e => .error e
  else if response.isArr && ((response.idx 0).get "type").isTextTag
      && ((response.idx 0).get "text").truthy then
    .ok ((response.idx 0).get "text")
  else if (response.get "content").truthy then
    .ok (response.get "content")
  else if (response.get "text").truthy then
    .ok (response.get "text")
  else if (response.get "choices").truthy
      && ((((response.get "choices").idx 0).get "message").get "content").truthy then
    .ok ((((response.get "choices").idx 0).get "message").get "content")
  else if ((response.get "data").get "content").truthy then
    .ok ((response.get "data").get "content")
  else if ((response.get "data").get "text").truthy then
    .ok ((response.get "data").get "text")
  else if (response.get "message").truthy then
    .ok (response.get "message")
  else if (response.get "response").truthy then
    .ok (response.get "response")
  else
    .ok (unknownFormatContent response)

/-- Role of a chat turn. -/
inductive Role : Type where
  | system
  | user
  | assistant
deriving DecidableEq

/-- One turn of a request turn sequence or of the stored conversation.
User turns hold the typed message; assistant turns hold whatever the
normalizer produced (which need not be a string). -/
structure ChatTurn : Type where
  role : Role
  content : JSValue

/-- A registry entry (`puterModelCapabilities.getModel`): the claims
only depend on the display name; the invocation parameters are opaque
configuration forwarded to the gateway. -/
structure ModelDesc : Type where
  name : String

/-- What a gateway call made with `stream: true` yields when it does not
reject: either an async-iterable stream — modelled as the parts it
yields in order followed by an optional error raised mid-iteration — or
a plain, non-incrementable value. -/
inductive StreamBehavior : Type where
  | stream : List JSValue → Option String → StreamBehavior
  | plain : JSValue → StreamBehavior

/-- The behavior of `puter.ai.chat` for one model in the grid path: one
answer per call shape the dispatcher can make.  A rejection carries the
error message of the raised error. -/
structure GridGateway : Type where
  streamStructured : Except String StreamBehavior
  streamFlattened : Except String StreamBehavior
  blockStructured : Except String JSValue
  blockFlattened : Except String JSValue

/-- A recorded gateway invocation of the grid dispatcher, with the
payload it carried. -/
inductive GridCall : Type where
  | streamStructured : List ChatTurn → GridCall
  | streamFlattened : String → GridCall
  | blockStructured : List ChatTurn → GridCall
  | blockFlattened : String → GridCall

/-- A UI-sink signal for one model panel. -/
inductive UIEvent : Type where
  | showTyping
  | removeTyping
  | assistantMessage : JSValue → UIEvent
  | updateContent : String → UIEvent

/-- Terminal outcome of one model dispatch. -/
inductive Outcome : Type where
  | complete : JSValue → Outcome
  | failed : String → Outcome
  | streamFailed : String → Outcome

/-- Result of one grid dispatch: its outcome, the UI-sink events it
emitted (each tagged with the panel's model identifier), and the
gateway calls it made, in order. -/
structure DispatchResult : Type where
  outcome : Outcome
  events : List (String × UIEvent)
  calls : List GridCall

/-- The synthesized system text (js/puterChatManager.js lines 68 and 92,
also puterSingleChatManager.js line 188). -/
def systemText (name : String) : String :=
  "You are " ++ name ++ ". Always identify yourself correctly as " ++ name
    ++ " when asked about your identity. Do not claim to be ChatGPT or any other model."

/-- The grid request turn sequence (js/puterChatManager.js lines 65-74):
one system turn plus the single new user turn. -/
def gridMessages (name message : String) : List ChatTurn :=
  [⟨Role.system, .str (systemText name)⟩, ⟨Role.user, .str message⟩]

/-- The flattened single-string request (js/puterChatManager.js lines
92-93 and 114-115). -/
def flatMessage (name message : String) : String :=
  systemText name ++ "\n\nUser: " ++ message

/-- Whether `formatContent(content)` throws when a message is rendered
(puterUIManager.js and puterSingleChatManager.js lines 392-401): falsy
content short-circuits to `""`, string content is formatted, and truthy
non-string content raises `TypeError` at `content.replace(...)` since
only strings have `.replace`. -/
def formatContentFails (content : JSValue) : Bool :=
  content.truthy && !content.isStringV

/-- The message of the `TypeError` raised by `formatContent` on truthy
non-string content. -/
def formatContentErrorMsg : String := "content.replace is not a function"

/-- Consuming a stream (the `for await` loops): parts whose `text`
field is truthy append `String(part.text)` to the accumulating buffer
(`fullContent += part.text`) and push the buffer to the panel.  The
`+=` conversion can raise for a part whose text has no primitive
conversion; the loop then stops there with that error and the stream's
own later raise is never reached.  Returns the final buffer, the
successive buffer values pushed, and the conversion error if any. -/
def streamAccums (acc : String) : List JSValue → String × List String × Option String
  | [] => (acc, [], none)
  | part :: rest =>
      if (part.get "text").truthy then
        match (part.get "text").toStr with
        | .error e => (acc, [], some e)
        | .ok s =>
            let acc2 := acc ++ s
            let (fin, upds, cerr) := streamAccums acc2 rest
            (fin, acc2 :: upds, cerr)
      else streamAccums acc rest

/-- `handleStreamingResponseForModel` (js/puterChatManager.js lines
134-171): removes the typing indicator, creates an empty assistant
message, applies each increment, and catches any error — a conversion
`TypeError` inside the loop or the stream's own raise — writing
`"Error: <message>"` into the message content; it never rethrows and
never falls back. -/
def handleStreamingResponseForModel (modelId : String) (chunks : List JSValue)
    (merr : Option String) : Outcome × List (String × UIEvent) :=
  let (fin, upds, cerr) := streamAccums "" chunks
  let base := [(modelId, UIEvent.removeTyping), (modelId, UIEvent.assistantMessage (.str ""))]
      ++ upds.map (fun u => (modelId, UIEvent.updateContent u))
  match cerr with
  | some ce =>
      (Outcome.streamFailed ce,
       base ++ [(modelId, UIEvent.updateContent ("Error: " ++ ce))])
  | none =>
      match merr with
      | none => (Outcome.complete (.str fin), base)
      | some e =>
          (Outcome.streamFailed e,
           base ++ [(modelId, UIEvent.updateContent ("Error: " ++ e))])

/-- Displaying a blocking response (js/puterChatManager.js lines
120-122 and the outer catch at 124-128): the typing indicator is
removed, then `displayResponseForModel` normalizes the payload and
renders it.  If the normalizer throws (conversion `TypeError`) or
`formatContent` throws on a truthy non-string result, the exception
reaches the outer catch, which invokes the typing-indicator removal
again (a no-op on the already-cleared panel, but still a sink call) and
appends `"Error: <message>"`; only a cleanly displayable result marks
the dispatch `complete`. -/
def displayResponsePhase (modelId : String) (v : JSValue)
    (ev0 : List (String × UIEvent)) (calls : List GridCall) : DispatchResult :=
  match extractContentFromResponse v with
  | .error e =>
      { outcome := .failed e
        events := ev0 ++ [(modelId, .removeTyping), (modelId, .removeTyping),
                          (modelId, .assistantMessage (.str ("Error: " ++ e)))]
        calls := calls }
  | .ok content =>
      if formatContentFails content then
        { outcome := .failed formatContentErrorMsg
          events := ev0 ++ [(modelId, .removeTyping), (modelId, .removeTyping),
                            (modelId, .assistantMessage
                              (.str ("Error: " ++ formatContentErrorMsg)))]
          calls := calls }
      else
        { outcome := .complete content
          events := ev0 ++ [(modelId, .removeTyping), (modelId, .assistantMessage content)]
          calls := calls }

/-- The blocking tail of `sendMessageToModel` (js/puterChatManager.js
lines 109-122): try the structured blocking call, then the flattened
blocking call; the response display may itself throw into the outer
catch; a second call rejection reaches the outer catch (lines 124-128),
which removes the typing indicator and appends `"Error: <message>"` to
this model's panel. -/
def blockingPhase (gw : GridGateway) (modelId : String) (msgs : List ChatTurn)
    (flat : String) (ev0 : List (String × UIEvent)) (calls0 : List GridCall) :
    DispatchResult :=
  match gw.blockStructured with
  | .ok v =>
      displayResponsePhase modelId v ev0 (calls0 ++ [GridCall.blockStructured msgs])
  | .error _ =>
      match gw.blockFlattened with
      | .ok v =>
          displayResponsePhase modelId v ev0
            (calls0 ++ [GridCall.blockStructured msgs, GridCall.blockFlattened flat])
      | .error e =>
          { outcome := .failed e
            events := ev0 ++ [(modelId, .removeTyping),
                              (modelId, .assistantMessage (.str ("Error: " ++ e)))]
            calls := calls0 ++ [GridCall.blockStructured msgs, GridCall.blockFlattened flat] }

/-- `sendMessageToModel` (js/puterChatManager.js lines 46-129), the
per-model dispatcher: show typing, look up the model, short-circuit on
attachments, then attempt streaming with the structured turn sequence;
on a streaming rejection retry streaming with the flattened string;
when streaming neither returned an async iterable nor succeeded, fall
through to the blocking phase.  Every failure is caught; the function
always returns normally. -/
def sendMessageToModel (gw : GridGateway) (registry : String → Option ModelDesc)
    (message : String) (images : List JSValue) (modelId : String) : DispatchResult :=
  let ev0 := [(modelId, UIEvent.showTyping)]
  match registry modelId with
  | none =>
      { outcome := .failed ("Model " ++ modelId ++ " not found")
        events := ev0 ++ [(modelId, .removeTyping),
                          (modelId, .assistantMessage
                            (.str ("Error: Model " ++ modelId ++ " not found")))]
        calls := [] }
  | some model =>
      if images.length > 0 then
        displayResponsePhase modelId
          (.str "❌ Image analysis is not supported in this version.") ev0 []
      else
        let msgs := gridMessages model.name message
        let flat := flatMessage model.name message
        match gw.streamStructured with
        | .ok (.stream chunks merr) =>
            let (outc, evs) := handleStreamingResponseForModel modelId chunks merr
            { outcome := outc, events := ev0 ++ evs
              calls := [GridCall.streamStructured msgs] }
        | .ok (.plain _) =>
            blockingPhase gw modelId msgs flat ev0 [GridCall.streamStructured msgs]
        | .error _ =>
            match gw.streamFlattened with
            | .ok (.stream chunks merr) =>
                let (outc, evs) := handleStreamingResponseForModel modelId chunks merr
                { outcome := outc, events := ev0 ++ evs
                  calls := [GridCall.streamStructured msgs, GridCall.streamFlattened flat] }
            | .ok (.plain _) =>
                blockingPhase gw modelId msgs flat ev0
                  [GridCall.streamStructured msgs, GridCall.streamFlattened flat]
            | .error _ =>
                blockingPhase gw modelId msgs flat ev0
                  [GridCall.streamStructured msgs, GridCall.streamFlattened flat]

/-- `sendMessageToAllModels` (js/puterChatManager.js lines 14-24), the
fan-out coordinator: one dispatcher invocation per target model
identifier, joined with `Promise.allSettled`, which waits for every
settlement and discards rejections — totality of `sendMessageToModel`
makes every dispatch settle with a terminal `DispatchResult`. -/
def sendMessageToAllModels (gw : String → GridGateway)
    (registry : String → Option ModelDesc) (message : String)
    (images : List JSValue) (modelIds : List String) :
    List (String × DispatchResult) :=
  modelIds.map (fun m => (m, sendMessageToModel (gw m) registry message images m))

/-- `String.prototype.trim`: drop whitespace from both ends (defined
over the character list so that it evaluates by kernel reduction). -/
def jsTrim (s : String) : String :=
  ⟨((s.data.dropWhile Char.isWhitespace).reverse.dropWhile Char.isWhitespace).reverse⟩

/-- State of the focused-chat session (`PuterSingleChatManager`): the
selected model identifier, the stored conversation, and the
single-flight flag. -/
structure SingleChatState : Type where
  currentModel : Option String
  chatHistory : List ChatTurn
  isProcessing : Bool

/-- The behavior of `puter.ai.chat` for the three call shapes the
focused-chat session makes: streaming structured, blocking structured,
blocking flattened. -/
structure SingleGateway : Type where
  streamStructured : Except String StreamBehavior
  blockStructured : Except String JSValue
  blockFlattened : Except String JSValue

/-- A UI action of the focused-chat session. -/
inductive SingleEvent : Type where
  | errorToast : String → SingleEvent
  | userMessage : String → SingleEvent
  | showTyping
  | removeTyping
  | assistantMessage : JSValue → SingleEvent
  | updateContent : String → SingleEvent

/-- A recorded gateway invocation of the focused-chat session. -/
inductive SingleCall : Type where
  | streamStructured : List ChatTurn → SingleCall
  | blockStructured : List ChatTurn → SingleCall
  | blockFlattened : String → SingleCall

/-- The flattened final-fallback text of the focused-chat session
(puterSingleChatManager.js lines 219-220); unlike the grid version it
omits the closing "Do not claim ..." sentence. -/
def singleFlatMessage (name message : String) : String :=
  "You are " ++ name ++ ". Always identify yourself correctly as " ++ name
    ++ " when asked about your identity." ++ "\n\nUser: " ++ message

/-- `clearChat` (puterSingleChatManager.js lines 137-140). -/
def clearChat (st : SingleChatState) : SingleChatState :=
  { st with chatHistory := [] }

/-- `handleModelChange` (puterSingleChatManager.js lines 95-105): a
falsy identifier (the empty placeholder option) only deselects the
model; picking a model sets it and clears the chat history. -/
def handleModelChange (st : SingleChatState) (modelId : String) : SingleChatState :=
  if modelId == "" then { st with currentModel := none }
  else { clearChat st with currentModel := some modelId }

/-- Displaying a focused-chat blocking response (puterSingleChatManager.js
lines 224-234 and the outer catch at 236-245): the typing indicator is
removed, the payload is normalized (which may throw a conversion
`TypeError`), the result is rendered (`formatContent` throws on a
truthy non-string), and only then is the assistant turn pushed.  Either
throw skips the push and reaches the outer catch, whose own
typing-indicator lookup finds nothing (the indicator is already gone)
and which displays `"Error: <message>"`.  `isProcessing` is always
reset by the `finally`. -/
def singleDisplayPhase (st : SingleChatState) (hist1 : List ChatTurn) (v : JSValue)
    (ev0 : List SingleEvent) (calls : List SingleCall) :
    SingleChatState × List SingleEvent × List SingleCall :=
  match extractContentFromResponse v with
  | .error e =>
      ({ st with chatHistory := hist1, isProcessing := false },
       ev0 ++ [SingleEvent.removeTyping,
               SingleEvent.assistantMessage (.str ("Error: " ++ e))],
       calls)
  | .ok content =>
      if formatContentFails content then
        ({ st with chatHistory := hist1, isProcessing := false },
         ev0 ++ [SingleEvent.removeTyping,
                 SingleEvent.assistantMessage (.str ("Error: " ++ formatContentErrorMsg))],
         calls)
      else
        ({ st with chatHistory := hist1 ++ [⟨Role.assistant, content⟩], isProcessing := false },
         ev0 ++ [SingleEvent.removeTyping, SingleEvent.assistantMessage content],
         calls)

/-- The blocking tail of the focused-chat `sendMessage`
(puterSingleChatManager.js lines 214-234): structured blocking call,
then flattened blocking call; on a call success the display phase runs
(and may itself throw into the outer catch); a second call rejection
reaches the outer catch (lines 236-245), which removes the still
present typing indicator and displays `"Error: <message>"` without
touching the history further.  The `finally` always resets
`isProcessing`. -/
def singleBlockingPhase (gw : SingleGateway) (st : SingleChatState)
    (hist1 : List ChatTurn) (msgs : List ChatTurn) (flat : String)
    (ev0 : List SingleEvent) (calls0 : List SingleCall) :
    SingleChatState × List SingleEvent × List SingleCall :=
  match gw.blockStructured with
  | .ok v =>
      singleDisplayPhase st hist1 v ev0 (calls0 ++ [SingleCall.blockStructured msgs])
  | .error _ =>
      match gw.blockFlattened with
      | .ok v =>
          singleDisplayPhase st hist1 v ev0
            (calls0 ++ [SingleCall.blockStructured msgs, SingleCall.blockFlattened flat])
      | .error e =>
          ({ st with chatHistory := hist1, isProcessing := false },
           ev0 ++ [SingleEvent.removeTyping,
                   SingleEvent.assistantMessage (.str ("Error: " ++ e))],
           calls0 ++ [SingleCall.blockStructured msgs, SingleCall.blockFlattened flat])

/-- `sendMessage` of the focused-chat session (puterSingleChatManager.js
lines 145-249).  Validation happens before the single-flight check: no
selected model or an all-whitespace message shows an error toast; a
send while `isProcessing` returns silently.  A valid send displays the
user message, appends the user turn, shows the typing indicator, builds
the outgoing sequence as the synthesized system turn followed by the
entire accumulated history, and attempts streaming, then the blocking
fallbacks.  On streaming success the assistant turn holds the
accumulated buffer; a mid-stream error is caught in
`handleStreamingResponse` (lines 254-291), which writes
`"Error: <message>"` into the message div and appends no assistant
turn.  Every path returns normally with `isProcessing` reset. -/
def singleSendMessage (gw : SingleGateway) (registry : String → Option ModelDesc)
    (st : SingleChatState) (message : String) :
    SingleChatState × List SingleEvent × List SingleCall :=
  match st.currentModel with
  | none => (st, [SingleEvent.errorToast "Please select a model first"], [])
  | some modelId =>
      if jsTrim message == "" then
        (st, [SingleEvent.errorToast "Please enter a message"], [])
      else if st.isProcessing then
        (st, [], [])
      else
        let hist1 := st.chatHistory ++ [⟨Role.user, .str message⟩]
        let ev0 := [SingleEvent.userMessage message, SingleEvent.showTyping]
        match registry modelId with
        | none =>
            ({ st with chatHistory := hist1, isProcessing := false },
             ev0 ++ [SingleEvent.removeTyping,
                     SingleEvent.assistantMessage (.str "Error: Selected model not found")],
             [])
        | some model =>
            let msgs := ChatTurn.mk Role.system (.str (systemText model.name)) :: hist1
            let flat := singleFlatMessage model.name message
            match gw.streamStructured with
            | .ok (.stream chunks merr) =>
                let (fin, upds, cerr) := streamAccums "" chunks
                let streamEvs := [SingleEvent.removeTyping, SingleEvent.assistantMessage (.str "")]
                    ++ upds.map SingleEvent.updateContent
                match cerr with
                | some ce =>
                    ({ st with chatHistory := hist1, isProcessing := false },
                     ev0 ++ streamEvs ++ [SingleEvent.updateContent ("Error: " ++ ce)],
                     [SingleCall.streamStructured msgs])
                | none =>
                    match merr with
                    | none =>
                        ({ st with chatHistory := hist1 ++ [⟨Role.assistant, .str fin⟩],
                                   isProcessing := false },
                         ev0 ++ streamEvs, [SingleCall.streamStructured msgs])
                    | some e =>
                        ({ st with chatHistory := hist1, isProcessing := false },
                         ev0 ++ streamEvs ++ [SingleEvent.updateContent ("Error: " ++ e)],
                         [SingleCall.streamStructured msgs])
            | .ok (.plain _) =>
                singleBlockingPhase gw st hist1 msgs flat ev0 [SingleCall.streamStructured msgs]
            | .error _ =>
                singleBlockingPhase gw st hist1 msgs flat ev0 [SingleCall.streamStructured msgs]

/-- Whether a string starts with `"Error:"` (over the character list,
so that it evaluates by kernel reduction). -/
def startsWithError (s : String) : Bool :=
  "Error:".data.isPrefixOf s.data

/-- Whether a UI event visibly displays an error message (the dispatcher
and streaming handler prefix every error display with `"Error: "`). -/
def isErrorDisplay : UIEvent → Bool
  | .assistantMessage (.str s) => startsWithError s
  | .updateContent s => startsWithError s
  | _ => false

/-- Whether an outcome is `complete`. -/
def isCompleteOutcome : Outcome → Bool
  | .complete _ => true
  | _ => false

/-- Whether an outcome is `failed`. -/
def isFailedOutcome : Outcome → Bool
  | .failed _ => true
  | _ => false

/-- The streaming phase of the grid dispatcher failed to take over:
either the structured streaming call returned a non-incrementable value
(the fallback retry is then skipped), or it rejected and the flattened
streaming retry also rejected or returned a non-incrementable value.
Exactly in these cases control falls through to the blocking phase. -/
def streamingFailed (gw : GridGateway) : Prop :=
  (∃ v, gw.streamStructured = Except.ok (StreamBehavior.plain v))
  ∨ (∃ e, gw.streamStructured = Except.error e
      ∧ ((∃ v2, gw.streamFlattened = Except.ok (StreamBehavior.plain v2))
         ∨ (∃ e2, gw.streamFlattened = Except.error e2)))

/-- The raw-field positions whose value the normalizer can return
unconverted when the corresponding probe is truthy. -/
def rawFieldProbe (v out : JSValue) : Prop :=
  out = (v.get "message").get "content"
  ∨ out = (v.idx 0).get "text"
  ∨ out = v.get "content"
  ∨ out = v.get "text"
  ∨ out = (((v.get "choices").idx 0).get "message").get "content"
  ∨ out = (v.get "data").get "content"
  ∨ out = (v.get "data").get "text"
  ∨ out = v.get "message"
  ∨ out = v.get "response"

/-- The OpenAI-style payload of the spec's §8 example:
`{choices: [{message: {content: "hi"}}]}`. -/
def choicesInput : JSValue :=
  .obj [("choices", .arr [.obj [("message", .obj [("content", .str "hi")])]])]

/-- The tagged-list payload of the spec's §8 example:
`[{type: "text", text: "x"}]`. -/
def taggedListInput : JSValue :=
  .arr [.obj [("type", .str "text"), ("text", .str "x")]]

/-- A payload with a direct `content` field: `{content: "c"}`. -/
def directContentInput : JSValue := .obj [("content", .str "c")]

/-- The unrecognized payload of the spec's §8 example: `{foo: 1, bar: 2}`. -/
def unknownInput : JSValue := .obj [("foo", .num 1), ("bar", .num 2)]

/-- A payload whose `message.content` field is a truthy non-string:
`{message: {content: 42}}`. -/
def nonStringContentInput : JSValue :=
  .obj [("message", .obj [("content", .num 42)])]

/-- A payload on which the normalizer itself throws:
`[{toString: 5}]` — branch 3 calls the array's inherited `toString`,
whose `join` cannot convert the element to a primitive. -/
def primThrowInput : JSValue := .arr [.obj [("toString", .num 5)]]

/-- A gateway whose streaming tiers reject but whose blocking tiers
answer: the healthy models of the spec's fan-out isolation scenario. -/
def healthyGateway : GridGateway :=
  { streamStructured := .error "no stream"
    streamFlattened := .error "no stream"
    blockStructured := .ok (.str "fine")
    blockFlattened := .ok (.str "fine") }

/-- A gateway whose every transport tier rejects: model B of the spec's
fan-out isolation scenario. -/
def downGateway : GridGateway :=
  { streamStructured := .error "tier down"
    streamFlattened := .error "tier down"
    blockStructured := .error "tier down"
    blockFlattened := .error "tier down" }

/-- The per-model gateway assignment of the fan-out isolation scenario:
every tier of model "B" fails, "A" and "C" succeed. -/
def scenarioGateways : String → GridGateway :=
  fun id => if id == "B" then downGateway else healthyGateway

/-- A registry resolving every identifier, naming the model after it. -/
def echoRegistry : String → Option ModelDesc := fun id => some ⟨id⟩

/-- A registry with a single model named "GPT-4o" under every key. -/
def oneModelRegistry : String → Option ModelDesc := fun _ => some ⟨"GPT-4o"⟩

/-- A grid gateway whose structured stream yields one increment and then
raises mid-iteration. -/
def midStreamErrorGateway : GridGateway :=
  { streamStructured := .ok (.stream [JSValue.obj [("text", .str "partial ")]] (some "connection lost"))
    streamFlattened := .ok (.plain (.str "unused"))
    blockStructured := .ok (.str "unused")
    blockFlattened := .ok (.str "unused") }

/-- A focused-chat gateway with every call rejecting. -/
def deadSingleGateway : SingleGateway :=
  { streamStructured := .error "down"
    blockStructured := .error "down"
    blockFlattened := .error "down" }

/-- A registry resolving nothing. -/
def emptyRegistry : String → Option ModelDesc := fun _ => none

/-- A focused-chat state with a send already in flight. -/
def inFlightState : SingleChatState :=
  { currentModel := some "gpt-4o"
    chatHistory := [⟨Role.user, .str "earlier"⟩]
    isProcessing := true }

/-- A focused-chat state right after picking a model. -/
def freshState : SingleChatState :=
  { currentModel := some "gpt-4o", chatHistory := [], isProcessing := false }

/-- A focused-chat gateway whose streaming call rejects and whose
structured blocking call answers with a plain string. -/
def directAnswerGateway : SingleGateway :=
  { streamStructured := .error "no stream"
    blockStructured := .ok (.str "hi there")
    blockFlattened := .error "down" }

/-- A focused-chat gateway whose stream yields one increment and
completes cleanly. -/
def cleanStreamGateway : SingleGateway :=
  { streamStructured := .ok (.stream [JSValue.obj [("text", .str "ok")]] none)
    blockStructured := .error "unused"
    blockFlattened := .error "unused" }

/-- A focused-chat gateway whose stream yields one increment and then
raises mid-iteration. -/
def midStreamErrorSingleGateway : SingleGateway :=
  { streamStructured := .ok (.stream [JSValue.obj [("text", .str "part")]] (some "reset"))
    blockStructured := .ok (.str "unused")
    blockFlattened := .ok (.str "unused") }

/-- Claim C2: evaluation of the normalizer on the spec's listed shapes.
A plain string and a truthy `message.content` come back as listed; but
the inherited-`toString` probe (spec item 3) matches every non-null
object and array, so the choices shape, the tagged list shape and the
direct `content` field all yield `"[object Object]"` instead of the
listed text. -/
theorem extract_listed_shapes_evaluation :
    extractContentFromResponse (.str "plain") = Except.ok (.str "plain")
    ∧ extractContentFromResponse (.obj [("message", .obj [("content", .str "hi")])])
        = Except.ok (.str "hi")
    ∧ extractContentFromResponse choicesInput = Except.ok (.str "[object Object]")
    ∧ extractContentFromResponse taggedListInput = Except.ok (.str "[object Object]")
    ∧ extractContentFromResponse directContentInput = Except.ok (.str "[object Object]")
    ∧ ("[object Object]" : String) ≠ "hi"
    ∧ ("[object Object]" : String) ≠ "x" := by
  refine ⟨rfl, rfl, rfl, rfl, rfl, by decide, by decide⟩

/-- Claim C6: on the unrecognized payload `{foo: 1, bar: 2}` both
normalizers return `"[object Object]"` from the generic `toString`
probe; the unknown-format diagnostic that would name the keys is
unreachable for object payloads, although evaluated directly on the
payload it would produce a string containing "foo" and "bar". -/
theorem unknown_payload_evaluation :
    extractContentFromResponse unknownInput = Except.ok (.str "[object Object]")
    ∧ displayChatContent unknownInput = Except.ok (.str "[object Object]")
    ∧ unknownFormatContent unknownInput
        = .str "Received response object with keys: foo, bar. Full response logged to console."
    ∧ (∃ a b : String,
        "Received response object with keys: foo, bar. Full response logged to console."
          = a ++ "foo" ++ b)
    ∧ (∃ a b : String,
        "Received response object with keys: foo, bar. Full response logged to console."
          = a ++ "bar" ++ b) := by
  refine ⟨rfl, rfl, rfl,
    ⟨"Received response object with keys: ", ", bar. Full response logged to console.", by decide⟩,
    ⟨"Received response object with keys: foo, ", ". Full response logged to console.", by decide⟩⟩

/-- Claim C5 counterexample: on `{message: {content: 42}}` the
normalizer returns the number `42`, not a string; and on
`[{toString: 5}]` it does not even return — the inherited `toString`
branch raises the primitive-conversion `TypeError`. -/
theorem normalize_nonstring_counterexample :
    extractContentFromResponse nonStringContentInput = Except.ok (.num 42)
    ∧ (JSValue.num 42).isStringV = false
    ∧ extractContentFromResponse primThrowInput
        = Except.error "Cannot convert object to primitive value" := ⟨rfl, rfl, rfl⟩

/-- Claim C7 counterexample: a second send issued while a send is in
flight, with an empty message, is not free of UI updates — the
validation checks run before the single-flight check and show an error
toast (the conversation is still untouched and no gateway call is
made). -/
theorem single_flight_ui_counterexample :
    inFlightState.isProcessing = true
    ∧ singleSendMessage deadSingleGateway emptyRegistry inFlightState ""
        = (inFlightState, [SingleEvent.errorToast "Please enter a message"], [])
    ∧ [SingleEvent.errorToast "Please enter a message"] ≠ ([] : List SingleEvent) := by
  refine ⟨rfl, rfl, by simp⟩

/-- Claim C9 counterexample: after one successful send in a fresh
session the stored conversation is `[user, assistant]` — its first
entry is a user turn, not a synthesized system turn (the system turn is
only prepended to the outgoing request). -/
theorem conversation_first_entry_counterexample :
    ((singleSendMessage directAnswerGateway oneModelRegistry freshState "hello").1.chatHistory.map
        ChatTurn.role) = [Role.user, Role.assistant]
    ∧ Role.user ≠ Role.system := ⟨rfl, by decide⟩

/-- A value satisfying the string probe is a string literal. -/
theorem isStringV_exists (v : JSValue) (h : v.isStringV = true) : ∃ s, v = JSValue.str s := by
  cases v with
  | str s => exact ⟨s, rfl⟩
  | num n => exact absurd h (by simp [JSValue.isStringV])
  | boolean b => exact absurd h (by simp [JSValue.isStringV])
  | null => exact absurd h (by simp [JSValue.isStringV])
  | undefined => exact absurd h (by simp [JSValue.isStringV])
  | arr xs => exact absurd h (by simp [JSValue.isStringV])
  | obj fs => exact absurd h (by simp [JSValue.isStringV])

/-- A truthy probed field is either a string or a raw non-string
witness for the normalizer's range analysis. -/
theorem str_or_raw (v m : JSValue) (ht : m.truthy = true) (hp : rawFieldProbe v m) :
    (∃ s, m = JSValue.str s)
    ∨ (m.truthy = true ∧ m.isStringV = false ∧ rawFieldProbe v m) := by
  by_cases hs : m.isStringV = true
  · exact Or.inl (isStringV_exists m hs)
  · exact Or.inr ⟨ht, by simpa using hs, hp⟩

/-- Claim C5 (amended): the normalizer either returns a string, or
returns the raw non-string value of one of its truthy field probes
(always possible through `message.content`, and through the later
probes when the payload shadows `toString` with a non-function value),
or raises — raising exactly from the primitive-conversion sites of the
inherited-`toString` and list-join branches. -/
theorem normalize_total_stringlike (v : JSValue) :
    (∃ s, extractContentFromResponse v = Except.ok (JSValue.str s))
    ∨ (∃ out, extractContentFromResponse v = Except.ok out
        ∧ out.truthy = true ∧ out.isStringV = false ∧ rawFieldProbe v out)
    ∨ (∃ e, extractContentFromResponse v = Except.error e) := by
  have hraw : ∀ m : JSValue, m.truthy = true → rawFieldProbe v m →
      (∃ s, (Except.ok m : Except String JSValue) = Except.ok (JSValue.str s))
      ∨ (∃ out, (Except.ok m : Except String JSValue) = Except.ok out
          ∧ out.truthy = true ∧ out.isStringV = false ∧ rawFieldProbe v out)
      ∨ (∃ e, (Except.ok m : Except String JSValue) = Except.error e) := by
    intro m ht hp
    rcases str_or_raw v m ht hp with ⟨s, rfl⟩ | ⟨ht2, hn, hp2⟩
    · exact Or.inl ⟨s, rfl⟩
    · exact Or.inr (Or.inl ⟨m, rfl, ht2, hn, hp2⟩)
  unfold extractContentFromResponse
  by_cases h1 : v.isStringV = true
  · rw [if_pos h1]
    obtain ⟨s, rfl⟩ := isStringV_exists v h1
    exact Or.inl ⟨s, rfl⟩
  rw [if_neg h1]
  by_cases h2 : ((v.get "message").get "content").truthy = true
  · rw [if_pos h2]
    exact hraw _ h2 (Or.inl rfl)
  rw [if_neg h2]
  by_cases h3 : v.hasCallableToString = true
  · rw [if_pos h3]
    cases hts : v.toStr with
    | ok s => exact Or.inl ⟨s, rfl⟩
    | error e => exact Or.inr (Or.inr ⟨e, rfl⟩)
  rw [if_neg h3]
  by_cases h4 : (v.isArr && ((v.idx 0).get "text").truthy) = true
  · rw [if_pos h4]
    cases hjp : JSValue.joinParts (v.elems.map mapItemValue) with
    | ok parts => exact Or.inl ⟨String.join parts, rfl⟩
    | error e => exact Or.inr (Or.inr ⟨e, rfl⟩)
  rw [if_neg h4]
  by_cases h5 : (v.isArr && ((v.idx 0).get "type").isTextTag && ((v.idx 0).get "text").truthy) = true
  · rw [if_pos h5]
    have h5c : ((v.idx 0).get "text").truthy = true := by
      simp only [Bool.and_eq_true] at h5
      exact h5.2
    exact hraw _ h5c (Or.inr (Or.inl rfl))
  rw [if_neg h5]
  by_cases h6 : (v.get "content").truthy = true
  · rw [if_pos h6]
    exact hraw _ h6 (Or.inr (Or.inr (Or.inl rfl)))
  rw [if_neg h6]
  by_cases h7 : (v.get "text").truthy = true
  · rw [if_pos h7]
    exact hraw _ h7 (Or.inr (Or.inr (Or.inr (Or.inl rfl))))
  rw [if_neg h7]
  by_cases h8 : ((v.get "choices").truthy
      && ((((v.get "choices").idx 0).get "message").get "content").truthy) = true
  · rw [if_pos h8]
    have h8c : ((((v.get "choices").idx 0).get "message").get "content").truthy = true := by
      simp only [Bool.and_eq_true] at h8
      exact h8.2
    exact hraw _ h8c (Or.inr (Or.inr (Or.inr (Or.inr (Or.inl rfl)))))
  rw [if_neg h8]
  by_cases h9 : ((v.get "data").get "content").truthy = true
  · rw [if_pos h9]
    exact hraw _ h9 (Or.inr (Or.inr (Or.inr (Or.inr (Or.inr (Or.inl rfl))))))
  rw [if_neg h9]
  by_cases h10 : ((v.get "data").get "text").truthy = true
  · rw [if_pos h10]
    exact hraw _ h10 (Or.inr (Or.inr (Or.inr (Or.inr (Or.inr (Or.inr (Or.inl rfl)))))))
  rw [if_neg h10]
  by_cases h11 : (v.get "message").truthy = true
  · rw [if_pos h11]
    exact hraw _ h11
      (Or.inr (Or.inr (Or.inr (Or.inr (Or.inr (Or.inr (Or.inr (Or.inl rfl))))))))
  rw [if_neg h11]
  by_cases h12 : (v.get "response").truthy = true
  · rw [if_pos h12]
    exact hraw _ h12
      (Or.inr (Or.inr (Or.inr (Or.inr (Or.inr (Or.inr (Or.inr (Or.inr rfl))))))))
  rw [if_neg h12]
  exact Or.inl ⟨_, rfl⟩

/-- Every event the streaming handler emits is tagged with its own
model identifier. -/
theorem handleStreaming_events_tag (m : String) (chunks : List JSValue) (merr : Option String) :
    ∀ e ∈ (handleStreamingResponseForModel m chunks merr).2, e.1 = m := by
  intro e he
  unfold handleStreamingResponseForModel at he
  rcases hsa : streamAccums "" chunks with ⟨fin, upds, cerr⟩
  rw [hsa] at he
  cases cerr with
  | some ce =>
      simp only [List.mem_append, List.mem_map, List.mem_cons, List.mem_singleton,
        List.not_mem_nil, or_false] at he
      rcases he with ((rfl | rfl) | ⟨u, _, rfl⟩) | rfl <;> rfl
  | none =>
      cases merr with
      | none =>
          simp only [List.mem_append, List.mem_map, List.mem_cons, List.mem_singleton,
            List.not_mem_nil, or_false] at he
          rcases he with (rfl | rfl) | ⟨u, _, rfl⟩ <;> rfl
      | some e2 =>
          simp only [List.mem_append, List.mem_map, List.mem_cons, List.mem_singleton,
            List.not_mem_nil, or_false] at he
          rcases he with ((rfl | rfl) | ⟨u, _, rfl⟩) | rfl <;> rfl

/-- Every event the display phase emits beyond its inherited list is
tagged with its own model identifier. -/
theorem displayResponsePhase_events_tag (m : String) (v : JSValue)
    (ev0 : List (String × UIEvent)) (calls : List GridCall)
    (h0 : ∀ e ∈ ev0, (e : String × UIEvent).1 = m) :
    ∀ e ∈ (displayResponsePhase m v ev0 calls).events, e.1 = m := by
  intro e he
  unfold displayResponsePhase at he
  cases hx : extractContentFromResponse v with
  | error err =>
      simp only [hx, List.append_eq, List.mem_append, List.mem_cons, List.mem_singleton,
        List.not_mem_nil, or_false] at he
      rcases he with he | rfl | rfl | rfl
      · exact h0 e he
      all_goals rfl
  | ok content =>
      by_cases hf : formatContentFails content = true
      · simp only [hx, hf, if_true, List.append_eq, List.mem_append, List.mem_cons,
          List.mem_singleton, List.not_mem_nil, or_false] at he
        rcases he with he | rfl | rfl | rfl
        · exact h0 e he
        all_goals rfl
      · have hf2 : formatContentFails content = false := by simpa using hf
        simp only [hx, hf2, Bool.false_eq_true, if_false, List.append_eq, List.mem_append,
          List.mem_cons, List.mem_singleton, List.not_mem_nil, or_false] at he
        rcases he with he | rfl | rfl
        · exact h0 e he
        all_goals rfl

/-- Every event the blocking phase emits beyond its inherited list is
tagged with its own model identifier. -/
theorem blockingPhase_events_tag (gw : GridGateway) (m : String) (msgs : List ChatTurn)
    (flat : String) (ev0 : List (String × UIEvent)) (calls0 : List GridCall)
    (h0 : ∀ e ∈ ev0, (e : String × UIEvent).1 = m) :
    ∀ e ∈ (blockingPhase gw m msgs flat ev0 calls0).events, e.1 = m := by
  intro e he
  unfold blockingPhase at he
  cases hB : gw.blockStructured with
  | ok v =>
      rw [hB] at he
      exact displayResponsePhase_events_tag m v ev0 _ h0 e he
  | error eb =>
      cases hC : gw.blockFlattened with
      | ok v =>
          rw [hB, hC] at he
          exact displayResponsePhase_events_tag m v ev0 _ h0 e he
      | error ec =>
          simp only [hB, hC, List.mem_append, List.mem_cons, List.mem_singleton,
            List.not_mem_nil, or_false] at he
          rcases he with he | rfl | rfl
          · exact h0 e he
          · rfl
          · rfl

/-- Every UI event one grid dispatch emits is tagged with that
dispatch's own model identifier: a dispatch writes only to its own
panel. -/
theorem dispatch_events_tag (gw : GridGateway) (registry : String → Option ModelDesc)
    (message : String) (images : List JSValue) (m : String) :
    ∀ e ∈ (sendMessageToModel gw registry message images m).events, e.1 = m := by
  intro e he
  unfold sendMessageToModel at he
  cases hreg : registry m with
  | none =>
      simp only [hreg, List.mem_append, List.mem_cons, List.mem_singleton, List.not_mem_nil,
        or_false] at he
      rcases he with rfl | rfl | rfl <;> rfl
  | some model =>
      by_cases himg : images.length > 0
      · simp only [hreg, himg, if_true] at he
        exact displayResponsePhase_events_tag m _ _ _
          (by intro x hx; simp only [List.mem_singleton] at hx; rw [hx]) e he
      · cases hA : gw.streamStructured with
        | ok sv =>
            cases sv with
            | stream chunks merr =>
                rcases hh : handleStreamingResponseForModel m chunks merr with ⟨outc, evs⟩
                simp only [hreg, himg, if_false, hA, hh, List.mem_append, List.mem_cons,
                  List.not_mem_nil, or_false] at he
                rcases he with rfl | he
                · rfl
                · have := handleStreaming_events_tag m chunks merr e
                  rw [hh] at this
                  exact this he
            | plain v =>
                simp only [hreg, himg, if_false, hA] at he
                exact blockingPhase_events_tag gw m _ _ _ _
                  (by intro x hx; simp only [List.mem_singleton] at hx; rw [hx]) e he
        | error ea =>
            cases hA2 : gw.streamFlattened with
            | ok sv2 =>
                cases sv2 with
                | stream chunks merr =>
                    rcases hh : handleStreamingResponseForModel m chunks merr with ⟨outc, evs⟩
                    simp only [hreg, himg, if_false, hA, hA2, hh, List.mem_append, List.mem_cons,
                      List.not_mem_nil, or_false] at he
                    rcases he with rfl | he
                    · rfl
                    · have := handleStreaming_events_tag m chunks merr e
                      rw [hh] at this
                      exact this he
                | plain v2 =>
                    simp only [hreg, himg, if_false, hA, hA2] at he
                    exact blockingPhase_events_tag gw m _ _ _ _
                      (by intro x hx; simp only [List.mem_singleton] at hx; rw [hx]) e he
            | error e2 =>
                simp only [hreg, himg, if_false, hA, hA2] at he
                exact blockingPhase_events_tag gw m _ _ _ _
                  (by intro x hx; simp only [List.mem_singleton] at hx; rw [hx]) e he

/-- Claim C1: the fan-out coordinator starts exactly one dispatch per
target model identifier; each entry's result is fully determined by
that model's own gateway behavior (so changing any other model's
behavior cannot change it); every dispatch settles with a terminal
result whose UI events all target its own panel; and in the spec's
isolation scenario (every tier of model "B" failing, "A"/"C" healthy)
the coordinator produces `complete` for A and C with no error text in
their panels and `failed` with an error display only for B. -/
theorem fanout_isolation (gw gw' : String → GridGateway) (registry : String → Option ModelDesc)
    (message : String) (images : List JSValue) (modelIds : List String) (m : String)
    (hagree : gw m = gw' m) :
    (sendMessageToAllModels gw registry message images modelIds).length = modelIds.length
    ∧ (∀ p ∈ sendMessageToAllModels gw registry message images modelIds,
        p.2 = sendMessageToModel (gw p.1) registry message images p.1
        ∧ ∀ e ∈ p.2.events, e.1 = p.1)
    ∧ (∀ p ∈ sendMessageToAllModels gw registry message images modelIds, p.1 = m →
        p ∈ sendMessageToAllModels gw' registry message images modelIds)
    ∧ ((sendMessageToAllModels scenarioGateways echoRegistry "hello" [] ["A", "B", "C"]).map
        (fun p => (p.1, isCompleteOutcome p.2.outcome, isFailedOutcome p.2.outcome,
                   p.2.events.any (fun e => isErrorDisplay e.2)))
        = [("A", true, false, false), ("B", false, true, true), ("C", true, false, false)]) := by
  refine ⟨by simp [sendMessageToAllModels], ?_, ?_, by rfl⟩
  · intro p hp
    simp only [sendMessageToAllModels, List.mem_map] at hp
    obtain ⟨id, hid, rfl⟩ := hp
    exact ⟨rfl, dispatch_events_tag (gw id) registry message images id⟩
  · intro p hp hpm
    simp only [sendMessageToAllModels, List.mem_map] at hp ⊢
    obtain ⟨id, hid, rfl⟩ := hp
    simp only at hpm
    subst hpm
    exact ⟨id, hid, by rw [hagree]⟩

/-- Witness for Claim C1 at the spec's three-model scenario. -/
theorem fanout_isolation_witness :
    scenarioGateways "B" = scenarioGateways "B"
    ∧ (sendMessageToAllModels scenarioGateways echoRegistry "hello" [] ["A", "B", "C"]).length
        = (["A", "B", "C"] : List String).length :=
  ⟨rfl, (fanout_isolation scenarioGateways scenarioGateways echoRegistry "hello" []
      ["A", "B", "C"] "B" rfl).1⟩

/-- The display phase leaves the recorded call list unchanged. -/
theorem displayPhase_calls (m : String) (v : JSValue) (ev0 : List (String × UIEvent))
    (calls : List GridCall) :
    (displayResponsePhase m v ev0 calls).calls = calls := by
  unfold displayResponsePhase
  cases hx : extractContentFromResponse v with
  | error e => rfl
  | ok content =>
      by_cases hf : formatContentFails content = true
      · simp only [hf, if_true]
      · have hf2 : formatContentFails content = false := by simpa using hf
        simp only [hf2, Bool.false_eq_true, if_false]

/-- Blocking phase when the structured blocking call answers: the
display phase runs on its payload. -/
theorem blockingPhase_ok (gw : GridGateway) (m : String) (msgs : List ChatTurn) (flat : String)
    (ev0 : List (String × UIEvent)) (calls0 : List GridCall) (v : JSValue)
    (hB : gw.blockStructured = Except.ok v) :
    blockingPhase gw m msgs flat ev0 calls0
      = displayResponsePhase m v ev0 (calls0 ++ [GridCall.blockStructured msgs]) := by
  unfold blockingPhase
  rw [hB]

/-- Blocking phase when the structured blocking call rejects and the
flattened one answers: the display phase runs on the flattened call's
payload. -/
theorem blockingPhase_err_ok (gw : GridGateway) (m : String) (msgs : List ChatTurn) (flat : String)
    (ev0 : List (String × UIEvent)) (calls0 : List GridCall) (eb : String) (v : JSValue)
    (hB : gw.blockStructured = Except.error eb) (hC : gw.blockFlattened = Except.ok v) :
    blockingPhase gw m msgs flat ev0 calls0
      = displayResponsePhase m v ev0
          (calls0 ++ [GridCall.blockStructured msgs, GridCall.blockFlattened flat]) := by
  unfold blockingPhase
  rw [hB, hC]

/-- Blocking phase when both blocking calls reject: the outer catch
displays the last error. -/
theorem blockingPhase_err_err (gw : GridGateway) (m : String) (msgs : List ChatTurn) (flat : String)
    (ev0 : List (String × UIEvent)) (calls0 : List GridCall) (eb ec : String)
    (hB : gw.blockStructured = Except.error eb) (hC : gw.blockFlattened = Except.error ec) :
    blockingPhase gw m msgs flat ev0 calls0
      = { outcome := Outcome.failed ec
          events := ev0 ++ [(m, UIEvent.removeTyping),
                            (m, UIEvent.assistantMessage (.str ("Error: " ++ ec)))]
          calls := calls0 ++ [GridCall.blockStructured msgs, GridCall.blockFlattened flat] } := by
  unfold blockingPhase
  rw [hB, hC]

/-- When the structured streaming call returns a non-incrementable
value, the dispatcher proceeds directly to the blocking phase (no
flattened streaming retry). -/
theorem dispatch_after_plain (gw : GridGateway) (registry : String → Option ModelDesc)
    (message m : String) (model : ModelDesc) (v : JSValue)
    (hreg : registry m = some model)
    (hv : gw.streamStructured = Except.ok (StreamBehavior.plain v)) :
    sendMessageToModel gw registry message [] m
      = blockingPhase gw m (gridMessages model.name message) (flatMessage model.name message)
          [(m, UIEvent.showTyping)] [GridCall.streamStructured (gridMessages model.name message)] := by
  unfold sendMessageToModel
  simp only [hreg, hv, List.length_nil, gt_iff_lt, Nat.lt_irrefl, if_false]

/-- When the structured streaming call rejects and the flattened
streaming retry returns a non-incrementable value, the dispatcher
proceeds to the blocking phase having made both streaming calls. -/
theorem dispatch_after_error_plain (gw : GridGateway) (registry : String → Option ModelDesc)
    (message m : String) (model : ModelDesc) (e : String) (v2 : JSValue)
    (hreg : registry m = some model)
    (he : gw.streamStructured = Except.error e)
    (hv2 : gw.streamFlattened = Except.ok (StreamBehavior.plain v2)) :
    sendMessageToModel gw registry message [] m
      = blockingPhase gw m (gridMessages model.name message) (flatMessage model.name message)
          [(m, UIEvent.showTyping)]
          [GridCall.streamStructured (gridMessages model.name message),
           GridCall.streamFlattened (flatMessage model.name message)] := by
  unfold sendMessageToModel
  simp only [hreg, he, hv2, List.length_nil, gt_iff_lt, Nat.lt_irrefl, if_false]

/-- When both streaming calls reject, the dispatcher proceeds to the
blocking phase having made both streaming calls. -/
theorem dispatch_after_error_error (gw : GridGateway) (registry : String → Option ModelDesc)
    (message m : String) (model : ModelDesc) (e e2 : String)
    (hreg : registry m = some model)
    (he : gw.streamStructured = Except.error e)
    (he2 : gw.streamFlattened = Except.error e2) :
    sendMessageToModel gw registry message [] m
      = blockingPhase gw m (gridMessages model.name message) (flatMessage model.name message)
          [(m, UIEvent.showTyping)]
          [GridCall.streamStructured (gridMessages model.name message),
           GridCall.streamFlattened (flatMessage model.name message)] := by
  unfold sendMessageToModel
  simp only [hreg, he, he2, List.length_nil, gt_iff_lt, Nat.lt_irrefl, if_false]

/-- Whenever the streaming phase fails to take over, the dispatch is a
blocking phase over the same structured turn sequence and flattened
string. -/
theorem dispatch_blocking_shape (gw : GridGateway) (registry : String → Option ModelDesc)
    (message m : String) (model : ModelDesc) (hreg : registry m = some model)
    (hsf : streamingFailed gw) :
    ∃ calls0, sendMessageToModel gw registry message [] m
        = blockingPhase gw m (gridMessages model.name message) (flatMessage model.name message)
            [(m, UIEvent.showTyping)] calls0 := by
  rcases hsf with ⟨v, hv⟩ | ⟨e, he, ⟨v2, hv2⟩ | ⟨e2, he2⟩⟩
  · exact ⟨_, dispatch_after_plain gw registry message m model v hreg hv⟩
  · exact ⟨_, dispatch_after_error_plain gw registry message m model e v2 hreg he hv2⟩
  · exact ⟨_, dispatch_after_error_error gw registry message m model e e2 hreg he he2⟩

/-- Claim C4: when every transport attempt fails, the dispatcher marks
the outcome `failed` with the description of the last error (transport
C's), removes the typing indicator and appends a visible error message
containing that description to this model's panel; every event carries
this model's identifier only, and the dispatcher returns normally (the
embedded function is total). -/
theorem dispatch_all_transports_fail (gw : GridGateway) (registry : String → Option ModelDesc)
    (message m : String) (model : ModelDesc) (e : String)
    (hreg : registry m = some model)
    (hstream : streamingFailed gw)
    (hB : ∃ eb, gw.blockStructured = Except.error eb)
    (hC : gw.blockFlattened = Except.error e) :
    (sendMessageToModel gw registry message [] m).outcome = Outcome.failed e
    ∧ (∃ pre, (sendMessageToModel gw registry message [] m).events
        = pre ++ [(m, UIEvent.removeTyping),
                  (m, UIEvent.assistantMessage (JSValue.str ("Error: " ++ e)))])
    ∧ (∀ ev ∈ (sendMessageToModel gw registry message [] m).events, ev.1 = m)
    ∧ (∃ a b : String, "Error: " ++ e = a ++ e ++ b) := by
  obtain ⟨eb, hB⟩ := hB
  obtain ⟨calls0, hshape⟩ := dispatch_blocking_shape gw registry message m model hreg hstream
  refine ⟨?_, ?_, dispatch_events_tag gw registry message [] m, ⟨"Error: ", "", by simp⟩⟩
  · rw [hshape, blockingPhase_err_err gw m (gridMessages model.name message)
      (flatMessage model.name message) [(m, UIEvent.showTyping)] calls0 eb e hB hC]
  · rw [hshape, blockingPhase_err_err gw m (gridMessages model.name message)
      (flatMessage model.name message) [(m, UIEvent.showTyping)] calls0 eb e hB hC]
    exact ⟨[(m, UIEvent.showTyping)], rfl⟩

/-- Witness for Claim C4 with every tier rejecting. -/
theorem dispatch_all_transports_fail_witness :
    echoRegistry "B" = some ⟨"B"⟩
    ∧ streamingFailed downGateway
    ∧ (∃ eb, downGateway.blockStructured = Except.error eb)
    ∧ downGateway.blockFlattened = Except.error "tier down"
    ∧ (sendMessageToModel downGateway echoRegistry "hello" [] "B").outcome
        = Outcome.failed "tier down" :=
  ⟨rfl, Or.inr ⟨"tier down", rfl, Or.inr ⟨"tier down", rfl⟩⟩, ⟨"tier down", rfl⟩, rfl,
   (dispatch_all_transports_fail downGateway echoRegistry "hello" "B" ⟨"B"⟩ "tier down" rfl
      (Or.inr ⟨"tier down", rfl, Or.inr ⟨"tier down", rfl⟩⟩) ⟨"tier down", rfl⟩ rfl).1⟩

/-- Grid dispatch when the stream raises mid-iteration: the streaming
handler catches the error, no further transport is attempted, the
outcome is `streamFailed`, and the final panel update is an error text
— the stream's own error when every consumed increment converted
cleanly, otherwise the conversion `TypeError` that stopped the loop
first. -/
theorem dispatch_stream_error_shape (gw : GridGateway) (registry : String → Option ModelDesc)
    (message m : String) (model : ModelDesc) (chunks : List JSValue) (e : String)
    (hreg : registry m = some model)
    (hA : gw.streamStructured = Except.ok (StreamBehavior.stream chunks (some e))) :
    (sendMessageToModel gw registry message [] m).calls
      = [GridCall.streamStructured (gridMessages model.name message)]
    ∧ (∃ msg, (sendMessageToModel gw registry message [] m).outcome = Outcome.streamFailed msg
        ∧ (∃ pre, (sendMessageToModel gw registry message [] m).events
            = pre ++ [(m, UIEvent.updateContent ("Error: " ++ msg))])
        ∧ ((streamAccums "" chunks).2.2 = none → msg = e)) := by
  rcases hacc : streamAccums "" chunks with ⟨fin, upds, cerr⟩
  cases cerr with
  | some ce =>
      have hh : handleStreamingResponseForModel m chunks (some e)
          = (Outcome.streamFailed ce,
             ([(m, UIEvent.removeTyping), (m, UIEvent.assistantMessage (.str ""))]
                ++ upds.map (fun u => (m, UIEvent.updateContent u)))
               ++ [(m, UIEvent.updateContent ("Error: " ++ ce))]) := by
        unfold handleStreamingResponseForModel
        rw [hacc]
      unfold sendMessageToModel
      simp only [hreg, hA, hh, List.length_nil, gt_iff_lt, Nat.lt_irrefl, if_false]
      refine ⟨trivial, ce, rfl, ?_, ?_⟩
      · exact ⟨[(m, UIEvent.showTyping)] ++ ([(m, UIEvent.removeTyping),
          (m, UIEvent.assistantMessage (.str ""))]
            ++ upds.map (fun u => (m, UIEvent.updateContent u))),
          by simp [List.append_assoc]⟩
      · intro hclean
        exact absurd hclean (by simp)
  | none =>
      have hh : handleStreamingResponseForModel m chunks (some e)
          = (Outcome.streamFailed e,
             ([(m, UIEvent.removeTyping), (m, UIEvent.assistantMessage (.str ""))]
                ++ upds.map (fun u => (m, UIEvent.updateContent u)))
               ++ [(m, UIEvent.updateContent ("Error: " ++ e))]) := by
        unfold handleStreamingResponseForModel
        rw [hacc]
      unfold sendMessageToModel
      simp only [hreg, hA, hh, List.length_nil, gt_iff_lt, Nat.lt_irrefl, if_false]
      refine ⟨trivial, e, rfl, ?_, fun _ => rfl⟩
      exact ⟨[(m, UIEvent.showTyping)] ++ ([(m, UIEvent.removeTyping),
        (m, UIEvent.assistantMessage (.str ""))]
          ++ upds.map (fun u => (m, UIEvent.updateContent u))),
        by simp [List.append_assoc]⟩

/-- Focused-chat send when the stream raises mid-iteration: the handler
catches the error, no blocking fallback is attempted, only the user
turn was appended to the conversation, and the final UI action is an
error text — the stream's own error when every consumed increment
converted cleanly; `isProcessing` is reset. -/
theorem singleSend_stream_error_shape (gw : SingleGateway) (registry : String → Option ModelDesc)
    (st : SingleChatState) (mid message : String) (model : ModelDesc) (chunks : List JSValue)
    (e : String)
    (hmid : st.currentModel = some mid) (hreg : registry mid = some model)
    (hproc : st.isProcessing = false) (hmsg : ¬ jsTrim message = "")
    (hA : gw.streamStructured = Except.ok (StreamBehavior.stream chunks (some e))) :
    (singleSendMessage gw registry st message).1.chatHistory
        = st.chatHistory ++ [⟨Role.user, .str message⟩]
    ∧ (singleSendMessage gw registry st message).1.isProcessing = false
    ∧ (singleSendMessage gw registry st message).2.2
        = [SingleCall.streamStructured
            (⟨Role.system, .str (systemText model.name)⟩
              :: (st.chatHistory ++ [⟨Role.user, .str message⟩]))]
    ∧ (∃ msg, (∃ pre, (singleSendMessage gw registry st message).2.1
          = pre ++ [SingleEvent.updateContent ("Error: " ++ msg)])
        ∧ ((streamAccums "" chunks).2.2 = none → msg = e)) := by
  have hb : (jsTrim message == "") = false := by
    simpa using hmsg
  rcases hacc : streamAccums "" chunks with ⟨fin, upds, cerr⟩
  unfold singleSendMessage
  simp only [hmid, hb, Bool.false_eq_true, if_false, hproc, hreg, hA, hacc]
  cases cerr with
  | some ce =>
      refine ⟨rfl, rfl, rfl, ce, ?_, ?_⟩
      · exact ⟨[SingleEvent.userMessage message, SingleEvent.showTyping]
            ++ ([SingleEvent.removeTyping, SingleEvent.assistantMessage (.str "")]
                ++ upds.map SingleEvent.updateContent),
          by simp [List.append_assoc]⟩
      · intro hclean
        exact absurd hclean (by simp)
  | none =>
      refine ⟨rfl, rfl, rfl, e, ?_, fun _ => rfl⟩
      exact ⟨[SingleEvent.userMessage message, SingleEvent.showTyping]
          ++ ([SingleEvent.removeTyping, SingleEvent.assistantMessage (.str "")]
              ++ upds.map SingleEvent.updateContent),
        by simp [List.append_assoc]⟩

/-- Claim C10: if the streaming transport returns an async iterable and
the stream then raises after consumption has begun, the dispatch does
not fall back to the blocking transports and does not propagate the
exception: an error text replaces the in-progress message content as
the final panel update — the stream's own error message whenever the
consumed increments converted cleanly — the dispatching call returns
normally, and in the focused-chat mode no assistant turn is appended to
the conversation for that send. -/
theorem streaming_error_contained (gw : GridGateway) (registry : String → Option ModelDesc)
    (message m : String) (model : ModelDesc) (chunks : List JSValue) (e : String)
    (sgw : SingleGateway) (sregistry : String → Option ModelDesc) (st : SingleChatState)
    (mid msg : String) (smodel : ModelDesc) (chunks2 : List JSValue) (e2 : String)
    (hreg : registry m = some model)
    (hA : gw.streamStructured = Except.ok (StreamBehavior.stream chunks (some e)))
    (_hbegun : chunks ≠ [])
    (hmid : st.currentModel = some mid) (hsreg : sregistry mid = some smodel)
    (hproc : st.isProcessing = false) (hmsg : ¬ jsTrim msg = "")
    (hsA : sgw.streamStructured = Except.ok (StreamBehavior.stream chunks2 (some e2))) :
    (sendMessageToModel gw registry message [] m).calls
        = [GridCall.streamStructured (gridMessages model.name message)]
    ∧ (∃ emsg, (sendMessageToModel gw registry message [] m).outcome = Outcome.streamFailed emsg
        ∧ (∃ pre, (sendMessageToModel gw registry message [] m).events
            = pre ++ [(m, UIEvent.updateContent ("Error: " ++ emsg))])
        ∧ ((streamAccums "" chunks).2.2 = none → emsg = e))
    ∧ (singleSendMessage sgw sregistry st msg).1.chatHistory
        = st.chatHistory ++ [⟨Role.user, .str msg⟩]
    ∧ (singleSendMessage sgw sregistry st msg).1.isProcessing = false
    ∧ (singleSendMessage sgw sregistry st msg).2.2
        = [SingleCall.streamStructured
            (⟨Role.system, .str (systemText smodel.name)⟩
              :: (st.chatHistory ++ [⟨Role.user, .str msg⟩]))]
    ∧ (∃ emsg, (∃ pre, (singleSendMessage sgw sregistry st msg).2.1
          = pre ++ [SingleEvent.updateContent ("Error: " ++ emsg)])
        ∧ ((streamAccums "" chunks2).2.2 = none → emsg = e2)) := by
  obtain ⟨hc, ho⟩ := dispatch_stream_error_shape gw registry message m model chunks e hreg hA
  obtain ⟨sh, sp, sc, sev⟩ := singleSend_stream_error_shape sgw sregistry st mid msg smodel
    chunks2 e2 hmid hsreg hproc hmsg hsA
  exact ⟨hc, ho, sh, sp, sc, sev⟩

/-- Witness for Claim C10 with one increment consumed before the raise,
in both the grid and the focused-chat paths. -/
theorem streaming_error_contained_witness :
    oneModelRegistry "gpt-4o" = some ⟨"GPT-4o"⟩
    ∧ midStreamErrorGateway.streamStructured
        = Except.ok (StreamBehavior.stream [JSValue.obj [("text", .str "partial ")]]
            (some "connection lost"))
    ∧ ([JSValue.obj [("text", .str "partial ")]] : List JSValue) ≠ []
    ∧ freshState.currentModel = some "gpt-4o"
    ∧ freshState.isProcessing = false
    ∧ ¬ jsTrim "hello" = ""
    ∧ midStreamErrorSingleGateway.streamStructured
        = Except.ok (StreamBehavior.stream [JSValue.obj [("text", .str "part")]] (some "reset"))
    ∧ (sendMessageToModel midStreamErrorGateway oneModelRegistry "query" [] "gpt-4o").calls
        = [GridCall.streamStructured (gridMessages "GPT-4o" "query")] :=
  ⟨rfl, rfl, by simp, rfl, rfl, by decide, rfl,
   (streaming_error_contained midStreamErrorGateway oneModelRegistry "query" "gpt-4o" ⟨"GPT-4o"⟩
      [JSValue.obj [("text", .str "partial ")]] "connection lost"
      midStreamErrorSingleGateway oneModelRegistry freshState "gpt-4o" "hello" ⟨"GPT-4o"⟩
      [JSValue.obj [("text", .str "part")]] "reset"
      rfl rfl (by simp) rfl rfl rfl (by decide) rfl).1⟩

/-- Claim C7 (amended): a second send issued while a send is in flight
leaves the session state untouched and makes no gateway call; it
produces no UI action at all when it passes validation (a model is
selected and the trimmed message is non-empty), and at most a single
validation toast otherwise. -/
theorem single_flight_no_op (gw : SingleGateway) (registry : String → Option ModelDesc)
    (st : SingleChatState) (message : String) (h : st.isProcessing = true) :
    (singleSendMessage gw registry st message).1 = st
    ∧ (singleSendMessage gw registry st message).2.2 = []
    ∧ ((singleSendMessage gw registry st message).2.1 = []
       ∨ ∃ t, (singleSendMessage gw registry st message).2.1 = [SingleEvent.errorToast t])
    ∧ (∀ mid, st.currentModel = some mid → ¬ jsTrim message = "" →
        (singleSendMessage gw registry st message).2.1 = []) := by
  unfold singleSendMessage
  cases hcm : st.currentModel with
  | none =>
      simp only [hcm]
      refine ⟨trivial, trivial, Or.inr ⟨_, rfl⟩, ?_⟩
      intro mid hmid
      exact absurd hmid (by simp)
  | some mid =>
      by_cases ht : jsTrim message = ""
      · have hb : (jsTrim message == "") = true := by simpa using ht
        simp only [hcm, hb, if_true]
        refine ⟨trivial, trivial, Or.inr ⟨_, rfl⟩, ?_⟩
        intro mid2 hmid2 hmsg2
        exact absurd ht hmsg2
      · have hb : (jsTrim message == "") = false := by simpa using ht
        simp only [hcm, hb, Bool.false_eq_true, if_false, h, if_true]
        exact ⟨trivial, trivial, Or.inl trivial, fun _ _ _ => trivial⟩

/-- Witness for Claim C7's amended theorem: a valid second send while
in flight is a complete no-op. -/
theorem single_flight_no_op_witness :
    inFlightState.isProcessing = true
    ∧ (singleSendMessage deadSingleGateway emptyRegistry inFlightState "hello").1 = inFlightState :=
  ⟨rfl, (single_flight_no_op deadSingleGateway emptyRegistry inFlightState "hello" rfl).1⟩

/-- The focused-chat display phase leaves the recorded call list
unchanged and resets the single-flight flag. -/
theorem singleDisplayPhase_calls (st : SingleChatState) (hist1 : List ChatTurn) (v : JSValue)
    (ev0 : List SingleEvent) (calls : List SingleCall) :
    (singleDisplayPhase st hist1 v ev0 calls).2.2 = calls
    ∧ (singleDisplayPhase st hist1 v ev0 calls).1.isProcessing = false := by
  unfold singleDisplayPhase
  cases hx : extractContentFromResponse v with
  | error e => exact ⟨rfl, rfl⟩
  | ok content =>
      by_cases hf : formatContentFails content = true
      · simp only [hf, if_true]
        exact ⟨trivial, trivial⟩
      · have hf2 : formatContentFails content = false := by simpa using hf
        simp only [hf2, Bool.false_eq_true, if_false]
        exact ⟨trivial, trivial⟩

/-- Focused-chat display phase with a cleanly displayable result: the
assistant turn is appended. -/
theorem singleDisplayPhase_clean (st : SingleChatState) (hist1 : List ChatTurn) (v : JSValue)
    (ev0 : List SingleEvent) (calls : List SingleCall) (content : JSValue)
    (hx : extractContentFromResponse v = Except.ok content)
    (hf : formatContentFails content = false) :
    singleDisplayPhase st hist1 v ev0 calls
      = ({ st with chatHistory := hist1 ++ [⟨Role.assistant, content⟩], isProcessing := false },
         ev0 ++ [SingleEvent.removeTyping, SingleEvent.assistantMessage content],
         calls) := by
  unfold singleDisplayPhase
  rw [hx]
  simp only [hf, Bool.false_eq_true, if_false]

/-- Focused-chat display phase when `formatContent` throws: no
assistant turn is appended and the error is displayed. -/
theorem singleDisplayPhase_format_fail (st : SingleChatState) (hist1 : List ChatTurn)
    (v : JSValue) (ev0 : List SingleEvent) (calls : List SingleCall) (content : JSValue)
    (hx : extractContentFromResponse v = Except.ok content)
    (hf : formatContentFails content = true) :
    singleDisplayPhase st hist1 v ev0 calls
      = ({ st with chatHistory := hist1, isProcessing := false },
         ev0 ++ [SingleEvent.removeTyping,
                 SingleEvent.assistantMessage (.str ("Error: " ++ formatContentErrorMsg))],
         calls) := by
  unfold singleDisplayPhase
  rw [hx]
  simp only [hf, if_true]

/-- Focused-chat display phase when the normalizer throws: no assistant
turn is appended and the conversion error is displayed. -/
theorem singleDisplayPhase_extract_fail (st : SingleChatState) (hist1 : List ChatTurn)
    (v : JSValue) (ev0 : List SingleEvent) (calls : List SingleCall) (e : String)
    (hx : extractContentFromResponse v = Except.error e) :
    singleDisplayPhase st hist1 v ev0 calls
      = ({ st with chatHistory := hist1, isProcessing := false },
         ev0 ++ [SingleEvent.removeTyping,
                 SingleEvent.assistantMessage (.str ("Error: " ++ e))],
         calls) := by
  unfold singleDisplayPhase
  rw [hx]

/-- The focused-chat blocking phase only appends to the recorded call
list. -/
theorem singleBlockingPhase_calls (gw : SingleGateway) (st : SingleChatState)
    (hist1 msgs : List ChatTurn) (flat : String) (ev0 : List SingleEvent)
    (calls0 : List SingleCall) :
    ∃ tail, (singleBlockingPhase gw st hist1 msgs flat ev0 calls0).2.2 = calls0 ++ tail := by
  unfold singleBlockingPhase
  cases hB : gw.blockStructured with
  | ok v =>
      rw [(singleDisplayPhase_calls st hist1 v ev0 _).1]
      exact ⟨_, rfl⟩
  | error eb =>
      cases hC : gw.blockFlattened with
      | ok v =>
          rw [(singleDisplayPhase_calls st hist1 v ev0 _).1]
          exact ⟨_, rfl⟩
      | error ec => exact ⟨_, rfl⟩

/-- Every valid focused-chat send's first gateway call is the streaming
structured call whose turn sequence is the synthesized system turn
followed by the entire accumulated conversation including the new user
turn. -/
theorem singleSend_first_call (gw : SingleGateway) (registry : String → Option ModelDesc)
    (st : SingleChatState) (message mid : String) (model : ModelDesc)
    (hmid : st.currentModel = some mid) (hreg : registry mid = some model)
    (hproc : st.isProcessing = false) (hmsg : ¬ jsTrim message = "") :
    ∃ rest, (singleSendMessage gw registry st message).2.2
      = SingleCall.streamStructured
          (⟨Role.system, .str (systemText model.name)⟩
            :: (st.chatHistory ++ [⟨Role.user, .str message⟩])) :: rest := by
  have hb : (jsTrim message == "") = false := by simpa using hmsg
  unfold singleSendMessage
  simp only [hmid, hb, Bool.false_eq_true, if_false, hproc, hreg]
  cases hA : gw.streamStructured with
  | ok sv =>
      cases sv with
      | stream chunks merr =>
          rcases hacc : streamAccums "" chunks with ⟨fin, upds, cerr⟩
          simp only [hacc]
          cases cerr with
          | some ce => exact ⟨[], rfl⟩
          | none =>
              cases merr with
              | none => exact ⟨[], rfl⟩
              | some e => exact ⟨[], rfl⟩
      | plain v =>
          obtain ⟨tail, htail⟩ := singleBlockingPhase_calls gw st
            (st.chatHistory ++ [⟨Role.user, .str message⟩])
            (⟨Role.system, .str (systemText model.name)⟩
              :: (st.chatHistory ++ [⟨Role.user, .str message⟩]))
            (singleFlatMessage model.name message)
            [SingleEvent.userMessage message, SingleEvent.showTyping]
            [SingleCall.streamStructured
              (⟨Role.system, .str (systemText model.name)⟩
                :: (st.chatHistory ++ [⟨Role.user, .str message⟩]))]
          rw [htail]
          exact ⟨tail, rfl⟩
  | error e =>
      obtain ⟨tail, htail⟩ := singleBlockingPhase_calls gw st
        (st.chatHistory ++ [⟨Role.user, .str message⟩])
        (⟨Role.system, .str (systemText model.name)⟩
          :: (st.chatHistory ++ [⟨Role.user, .str message⟩]))
        (singleFlatMessage model.name message)
        [SingleEvent.userMessage message, SingleEvent.showTyping]
        [SingleCall.streamStructured
          (⟨Role.system, .str (systemText model.name)⟩
            :: (st.chatHistory ++ [⟨Role.user, .str message⟩]))]
      rw [htail]
      exact ⟨tail, rfl⟩

/-- A focused-chat send whose stream completes cleanly — every consumed
increment converted and the stream raised no error — keeps the model
selection, resets the single-flight flag, and appends exactly the user
turn and the assistant turn holding the accumulated buffer. -/
theorem singleSend_stream_success (gw : SingleGateway) (registry : String → Option ModelDesc)
    (st : SingleChatState) (message mid : String) (model : ModelDesc) (chunks : List JSValue)
    (hmid : st.currentModel = some mid) (hreg : registry mid = some model)
    (hproc : st.isProcessing = false) (hmsg : ¬ jsTrim message = "")
    (hA : gw.streamStructured = Except.ok (StreamBehavior.stream chunks none))
    (hclean : (streamAccums "" chunks).2.2 = none) :
    (singleSendMessage gw registry st message).1.currentModel = some mid
    ∧ (singleSendMessage gw registry st message).1.isProcessing = false
    ∧ (singleSendMessage gw registry st message).1.chatHistory
        = (st.chatHistory ++ [⟨Role.user, .str message⟩])
          ++ [⟨Role.assistant, .str (streamAccums "" chunks).1⟩] := by
  have hb : (jsTrim message == "") = false := by simpa using hmsg
  rcases hacc : streamAccums "" chunks with ⟨fin, upds, cerr⟩
  rw [hacc] at hclean
  simp only at hclean
  subst hclean
  unfold singleSendMessage
  simp only [hmid, hb, Bool.false_eq_true, if_false, hproc, hreg, hA, hacc]
  exact ⟨trivial, trivial, trivial⟩

/-- Every gateway call a grid dispatch makes carries either the
two-turn structured sequence (system + single new user turn) or its
flattened one-string form. -/
theorem dispatch_calls_forms (gw : GridGateway) (registry : String → Option ModelDesc)
    (message m : String) (model : ModelDesc) (hreg : registry m = some model) :
    ∀ c ∈ (sendMessageToModel gw registry message [] m).calls,
      c = GridCall.streamStructured (gridMessages model.name message)
      ∨ c = GridCall.streamFlattened (flatMessage model.name message)
      ∨ c = GridCall.blockStructured (gridMessages model.name message)
      ∨ c = GridCall.blockFlattened (flatMessage model.name message) := by
  intro c hc
  cases hA : gw.streamStructured with
  | ok sv =>
      cases sv with
      | stream chunks merr =>
          rcases hh : handleStreamingResponseForModel m chunks merr with ⟨outc, evs⟩
          unfold sendMessageToModel at hc
          simp only [hreg, hA, hh, List.length_nil, gt_iff_lt, Nat.lt_irrefl, if_false,
            List.mem_singleton] at hc
          exact Or.inl hc
      | plain v =>
          rw [dispatch_after_plain gw registry message m model v hreg hA] at hc
          cases hB : gw.blockStructured with
          | ok w =>
              rw [blockingPhase_ok gw m (gridMessages model.name message)
                (flatMessage model.name message) [(m, UIEvent.showTyping)] _ w hB,
                displayPhase_calls] at hc
              simp only [List.cons_append, List.nil_append, List.mem_cons,
                List.not_mem_nil, or_false] at hc
              rcases hc with rfl | rfl
              · exact Or.inl rfl
              · exact Or.inr (Or.inr (Or.inl rfl))
          | error eb =>
              cases hC : gw.blockFlattened with
              | ok w =>
                  rw [blockingPhase_err_ok gw m (gridMessages model.name message)
                    (flatMessage model.name message) [(m, UIEvent.showTyping)] _ eb w hB hC,
                    displayPhase_calls] at hc
                  simp only [List.cons_append, List.nil_append, List.mem_cons,
                    List.not_mem_nil, or_false] at hc
                  rcases hc with rfl | rfl | rfl
                  · exact Or.inl rfl
                  · exact Or.inr (Or.inr (Or.inl rfl))
                  · exact Or.inr (Or.inr (Or.inr rfl))
              | error ec =>
                  rw [blockingPhase_err_err gw m (gridMessages model.name message)
                    (flatMessage model.name message) [(m, UIEvent.showTyping)] _ eb ec hB hC] at hc
                  simp only [List.cons_append, List.nil_append, List.mem_cons,
                    List.not_mem_nil, or_false] at hc
                  rcases hc with rfl | rfl | rfl
                  · exact Or.inl rfl
                  · exact Or.inr (Or.inr (Or.inl rfl))
                  · exact Or.inr (Or.inr (Or.inr rfl))
  | error e =>
      cases hA2 : gw.streamFlattened with
      | ok sv2 =>
          cases sv2 with
          | stream chunks merr =>
              rcases hh : handleStreamingResponseForModel m chunks merr with ⟨outc, evs⟩
              unfold sendMessageToModel at hc
              simp only [hreg, hA, hA2, hh, List.length_nil, gt_iff_lt, Nat.lt_irrefl, if_false,
                List.mem_cons, List.not_mem_nil, or_false] at hc
              rcases hc with rfl | rfl
              · exact Or.inl rfl
              · exact Or.inr (Or.inl rfl)
          | plain v2 =>
              rw [dispatch_after_error_plain gw registry message m model e v2 hreg hA hA2] at hc
              cases hB : gw.blockStructured with
              | ok w =>
                  rw [blockingPhase_ok gw m (gridMessages model.name message)
                    (flatMessage model.name message) [(m, UIEvent.showTyping)] _ w hB,
                    displayPhase_calls] at hc
                  simp only [List.cons_append, List.nil_append, List.mem_cons,
                    List.not_mem_nil, or_false] at hc
                  rcases hc with rfl | rfl | rfl
                  · exact Or.inl rfl
                  · exact Or.inr (Or.inl rfl)
                  · exact Or.inr (Or.inr (Or.inl rfl))
              | error eb =>
                  cases hC : gw.blockFlattened with
                  | ok w =>
                      rw [blockingPhase_err_ok gw m (gridMessages model.name message)
                        (flatMessage model.name message) [(m, UIEvent.showTyping)] _ eb w hB hC,
                        displayPhase_calls] at hc
                      simp only [List.cons_append, List.nil_append, List.mem_cons,
                        List.not_mem_nil, or_false] at hc
                      rcases hc with rfl | rfl | rfl | rfl
                      · exact Or.inl rfl
                      · exact Or.inr (Or.inl rfl)
                      · exact Or.inr (Or.inr (Or.inl rfl))
                      · exact Or.inr (Or.inr (Or.inr rfl))
                  | error ec =>
                      rw [blockingPhase_err_err gw m (gridMessages model.name message)
                        (flatMessage model.name message) [(m, UIEvent.showTyping)] _ eb ec hB hC] at hc
                      simp only [List.cons_append, List.nil_append, List.mem_cons,
                        List.not_mem_nil, or_false] at hc
                      rcases hc with rfl | rfl | rfl | rfl
                      · exact Or.inl rfl
                      · exact Or.inr (Or.inl rfl)
                      · exact Or.inr (Or.inr (Or.inl rfl))
                      · exact Or.inr (Or.inr (Or.inr rfl))
      | error e2 =>
          rw [dispatch_after_error_error gw registry message m model e e2 hreg hA hA2] at hc
          cases hB : gw.blockStructured with
          | ok w =>
              rw [blockingPhase_ok gw m (gridMessages model.name message)
                (flatMessage model.name message) [(m, UIEvent.showTyping)] _ w hB,
                displayPhase_calls] at hc
              simp only [List.cons_append, List.nil_append, List.mem_cons,
                List.not_mem_nil, or_false] at hc
              rcases hc with rfl | rfl | rfl
              · exact Or.inl rfl
              · exact Or.inr (Or.inl rfl)
              · exact Or.inr (Or.inr (Or.inl rfl))
          | error eb =>
              cases hC : gw.blockFlattened with
              | ok w =>
                  rw [blockingPhase_err_ok gw m (gridMessages model.name message)
                    (flatMessage model.name message) [(m, UIEvent.showTyping)] _ eb w hB hC,
                    displayPhase_calls] at hc
                  simp only [List.cons_append, List.nil_append, List.mem_cons,
                    List.not_mem_nil, or_false] at hc
                  rcases hc with rfl | rfl | rfl | rfl
                  · exact Or.inl rfl
                  · exact Or.inr (Or.inl rfl)
                  · exact Or.inr (Or.inr (Or.inl rfl))
                  · exact Or.inr (Or.inr (Or.inr rfl))
              | error ec =>
                  rw [blockingPhase_err_err gw m (gridMessages model.name message)
                    (flatMessage model.name message) [(m, UIEvent.showTyping)] _ eb ec hB hC] at hc
                  simp only [List.cons_append, List.nil_append, List.mem_cons,
                    List.not_mem_nil, or_false] at hc
                  rcases hc with rfl | rfl | rfl | rfl
                  · exact Or.inl rfl
                  · exact Or.inr (Or.inl rfl)
                  · exact Or.inr (Or.inr (Or.inl rfl))
                  · exact Or.inr (Or.inr (Or.inr rfl))

/-- Claim C8: every focused-chat send transmits the entire accumulated
conversation prefixed by one synthesized system turn (turn count =
history + 2), so after two successful exchanges — sends whose streams
complete cleanly — the third send's outgoing turn sequence has length
exactly 6; in grid mode every call carries only the system turn and the
single new user turn (length 2), either structured or flattened into
one string. -/
theorem context_propagation :
    (∀ (gw : SingleGateway) (registry : String → Option ModelDesc) (st : SingleChatState)
       (message mid : String) (model : ModelDesc),
       st.currentModel = some mid → registry mid = some model → st.isProcessing = false →
       ¬ jsTrim message = "" →
       ∃ rest, (singleSendMessage gw registry st message).2.2
         = SingleCall.streamStructured
             (⟨Role.system, .str (systemText model.name)⟩
               :: (st.chatHistory ++ [⟨Role.user, .str message⟩])) :: rest
         ∧ (⟨Role.system, .str (systemText model.name)⟩
               :: (st.chatHistory ++ [⟨Role.user, .str message⟩]) : List ChatTurn).length
             = st.chatHistory.length + 2)
    ∧ (∀ (gw1 gw2 gw3 : SingleGateway) (registry : String → Option ModelDesc)
         (mid m1 m2 m3 : String) (model : ModelDesc) (chunks1 chunks2 : List JSValue),
       registry mid = some model →
       ¬ jsTrim m1 = "" → ¬ jsTrim m2 = "" → ¬ jsTrim m3 = "" →
       gw1.streamStructured = Except.ok (StreamBehavior.stream chunks1 none) →
       gw2.streamStructured = Except.ok (StreamBehavior.stream chunks2 none) →
       (streamAccums "" chunks1).2.2 = none →
       (streamAccums "" chunks2).2.2 = none →
       ∃ msgs rest,
         (singleSendMessage gw3 registry
           (singleSendMessage gw2 registry
             (singleSendMessage gw1 registry ⟨some mid, [], false⟩ m1).1 m2).1 m3).2.2
           = SingleCall.streamStructured msgs :: rest
         ∧ msgs.length = 6)
    ∧ (∀ (gw : GridGateway) (registry : String → Option ModelDesc) (message m : String)
         (model : ModelDesc),
       registry m = some model →
       (gridMessages model.name message).length = 2
       ∧ (gridMessages model.name message).map ChatTurn.role = [Role.system, Role.user]
       ∧ ∀ c ∈ (sendMessageToModel gw registry message [] m).calls,
           c = GridCall.streamStructured (gridMessages model.name message)
           ∨ c = GridCall.streamFlattened (flatMessage model.name message)
           ∨ c = GridCall.blockStructured (gridMessages model.name message)
           ∨ c = GridCall.blockFlattened (flatMessage model.name message)) := by
  refine ⟨?_, ?_, ?_⟩
  · intro gw registry st message mid model hmid hreg hproc hmsg
    obtain ⟨rest, hcall⟩ := singleSend_first_call gw registry st message mid model
      hmid hreg hproc hmsg
    exact ⟨rest, hcall, by simp⟩
  · intro gw1 gw2 gw3 registry mid m1 m2 m3 model chunks1 chunks2 hreg hm1 hm2 hm3 hA1 hA2
      hcl1 hcl2
    obtain ⟨h1cm, h1ip, h1h⟩ := singleSend_stream_success gw1 registry ⟨some mid, [], false⟩
      m1 mid model chunks1 rfl hreg rfl hm1 hA1 hcl1
    obtain ⟨h2cm, h2ip, h2h⟩ := singleSend_stream_success gw2 registry
      (singleSendMessage gw1 registry ⟨some mid, [], false⟩ m1).1 m2 mid model chunks2
      h1cm hreg h1ip hm2 hA2 hcl2
    obtain ⟨rest, hcall⟩ := singleSend_first_call gw3 registry
      (singleSendMessage gw2 registry
        (singleSendMessage gw1 registry ⟨some mid, [], false⟩ m1).1 m2).1 m3 mid model
      h2cm hreg h2ip hm3
    refine ⟨_, rest, hcall, ?_⟩
    simp [h2h, h1h]
  · intro gw registry message m model hreg
    exact ⟨rfl, rfl, dispatch_calls_forms gw registry message m model hreg⟩

/-- Witness for Claim C8: three concrete sends over a cleanly streaming
gateway. -/
theorem context_propagation_witness :
    freshState.currentModel = some "gpt-4o"
    ∧ oneModelRegistry "gpt-4o" = some ⟨"GPT-4o"⟩
    ∧ freshState.isProcessing = false
    ∧ ¬ jsTrim "hello" = ""
    ∧ (streamAccums "" [JSValue.obj [("text", .str "ok")]]).2.2 = none
    ∧ (∃ rest, (singleSendMessage cleanStreamGateway oneModelRegistry freshState "hello").2.2
        = SingleCall.streamStructured
            (⟨Role.system, .str (systemText "GPT-4o")⟩
              :: (freshState.chatHistory ++ [⟨Role.user, .str "hello"⟩])) :: rest
        ∧ (⟨Role.system, .str (systemText "GPT-4o")⟩
              :: (freshState.chatHistory ++ [⟨Role.user, .str "hello"⟩]) : List ChatTurn).length
            = freshState.chatHistory.length + 2)
    ∧ (∃ msgs rest,
        (singleSendMessage cleanStreamGateway oneModelRegistry
          (singleSendMessage cleanStreamGateway oneModelRegistry
            (singleSendMessage cleanStreamGateway oneModelRegistry
              ⟨some "gpt-4o", [], false⟩ "one").1 "two").1 "three").2.2
          = SingleCall.streamStructured msgs :: rest
        ∧ msgs.length = 6) :=
  ⟨rfl, rfl, rfl, by decide, rfl,
   context_propagation.1 cleanStreamGateway oneModelRegistry freshState "hello" "gpt-4o"
     ⟨"GPT-4o"⟩ rfl rfl rfl (by decide),
   context_propagation.2.1 cleanStreamGateway cleanStreamGateway cleanStreamGateway
     oneModelRegistry "gpt-4o" "one" "two" "three" ⟨"GPT-4o"⟩
     [JSValue.obj [("text", .str "ok")]] [JSValue.obj [("text", .str "ok")]]
     rfl (by decide) (by decide) (by decide) rfl rfl rfl rfl⟩

/-- The focused-chat display phase appends at most one assistant turn
to the supplied history, and never a system turn. -/
theorem singleDisplayPhase_hist (st : SingleChatState) (hist1 : List ChatTurn) (v : JSValue)
    (ev0 : List SingleEvent) (calls : List SingleCall) :
    ∃ suffix, (singleDisplayPhase st hist1 v ev0 calls).1.chatHistory = hist1 ++ suffix
      ∧ ∀ t ∈ suffix, t.role ≠ Role.system := by
  unfold singleDisplayPhase
  cases hE : extractContentFromResponse v with
  | error e => exact ⟨[], by simp, by simp⟩
  | ok content =>
      cases hF : formatContentFails content with
      | true =>
          simp only [hF, if_true]
          exact ⟨[], by simp, by simp⟩
      | false =>
          simp only [hF, Bool.false_eq_true, if_false]
          exact ⟨[⟨Role.assistant, content⟩], rfl, by simp⟩

/-- The focused-chat blocking phase appends at most one assistant turn
to the supplied history, and never a system turn. -/
theorem singleBlockingPhase_hist (gw : SingleGateway) (st : SingleChatState)
    (hist1 msgs : List ChatTurn) (flat : String) (ev0 : List SingleEvent)
    (calls0 : List SingleCall) :
    ∃ suffix, (singleBlockingPhase gw st hist1 msgs flat ev0 calls0).1.chatHistory
        = hist1 ++ suffix
      ∧ ∀ t ∈ suffix, t.role ≠ Role.system := by
  unfold singleBlockingPhase
  cases hB : gw.blockStructured with
  | ok w => exact singleDisplayPhase_hist st hist1 w ev0 _
  | error eb =>
      cases hC : gw.blockFlattened with
      | ok w => exact singleDisplayPhase_hist st hist1 w ev0 _
      | error ec => exact ⟨[], by simp, by simp⟩

/-- A focused-chat send only ever appends to the stored conversation,
and never appends a system turn (only user and assistant turns). -/
theorem singleSend_append_only (gw : SingleGateway) (registry : String → Option ModelDesc)
    (st : SingleChatState) (message : String) :
    ∃ suffix, (singleSendMessage gw registry st message).1.chatHistory
        = st.chatHistory ++ suffix
      ∧ ∀ t ∈ suffix, t.role ≠ Role.system := by
  unfold singleSendMessage
  cases hcm : st.currentModel with
  | none => exact ⟨[], by simp, by simp⟩
  | some mid =>
      by_cases ht : jsTrim message = ""
      · have hb : (jsTrim message == "") = true := by simpa using ht
        simp only [hb, if_true]
        exact ⟨[], by simp, by simp⟩
      · have hb : (jsTrim message == "") = false := by simpa using ht
        simp only [hb, Bool.false_eq_true, if_false]
        cases hip : st.isProcessing with
        | true =>
            simp only [if_true]
            exact ⟨[], by simp, by simp⟩
        | false =>
            simp only [Bool.false_eq_true, if_false]
            cases hreg : registry mid with
            | none =>
                exact ⟨[⟨Role.user, .str message⟩], rfl, by simp⟩
            | some model =>
                cases hA : gw.streamStructured with
                | ok sv =>
                    cases sv with
                    | stream chunks merr =>
                        rcases hacc : streamAccums "" chunks with ⟨fin, upds, cerr⟩
                        simp only [hacc]
                        cases cerr with
                        | some ce =>
                            exact ⟨[⟨Role.user, .str message⟩], rfl, by simp⟩
                        | none =>
                            cases merr with
                            | none =>
                                refine ⟨[⟨Role.user, .str message⟩, ⟨Role.assistant, .str fin⟩],
                                  by simp, by simp⟩
                            | some e =>
                                exact ⟨[⟨Role.user, .str message⟩], rfl, by simp⟩
                    | plain v =>
                        obtain ⟨sfx, h1, h2⟩ := singleBlockingPhase_hist gw st
                          (st.chatHistory ++ [⟨Role.user, .str message⟩]) _ _ _ _
                        refine ⟨⟨Role.user, .str message⟩ :: sfx, ?_, ?_⟩
                        · rw [h1]; simp
                        · intro t htm
                          rcases List.mem_cons.mp htm with h | h
                          · subst h; simp
                          · exact h2 t h
                | error e =>
                    obtain ⟨sfx, h1, h2⟩ := singleBlockingPhase_hist gw st
                      (st.chatHistory ++ [⟨Role.user, .str message⟩]) _ _ _ _
                    refine ⟨⟨Role.user, .str message⟩ :: sfx, ?_, ?_⟩
                    · rw [h1]; simp
                    · intro t htm
                      rcases List.mem_cons.mp htm with h | h
                      · subst h; simp
                      · exact h2 t h

/-- Claim C9 (amended): the stored conversation never contains a
synthesized system turn — its turns are only ever appended during a
session and are user or assistant turns; the system turn identifying
the model by name is prepended only to each outgoing request sequence;
and picking a model clears the conversation in whole (as does
clearChat). -/
theorem conversation_invariant_amended :
    (∀ (gw : SingleGateway) (registry : String → Option ModelDesc) (st : SingleChatState)
       (message : String),
       ∃ suffix, (singleSendMessage gw registry st message).1.chatHistory
           = st.chatHistory ++ suffix
         ∧ ∀ t ∈ suffix, t.role ≠ Role.system)
    ∧ (∀ (st : SingleChatState) (modelId : String), ¬ modelId = "" →
       (handleModelChange st modelId).chatHistory = []
       ∧ (handleModelChange st modelId).currentModel = some modelId)
    ∧ (∀ st : SingleChatState, (clearChat st).chatHistory = [])
    ∧ (∀ (gw : SingleGateway) (registry : String → Option ModelDesc) (st : SingleChatState)
       (message mid : String) (model : ModelDesc),
       st.currentModel = some mid → registry mid = some model → st.isProcessing = false →
       ¬ jsTrim message = "" →
       ∃ rest, (singleSendMessage gw registry st message).2.2
         = SingleCall.streamStructured
             (⟨Role.system, .str (systemText model.name)⟩
               :: (st.chatHistory ++ [⟨Role.user, .str message⟩])) :: rest) := by
  refine ⟨singleSend_append_only, ?_, fun st => rfl, ?_⟩
  · intro st modelId hid
    have hb : (modelId == "") = false := by simpa using hid
    unfold handleModelChange
    rw [hb]
    exact ⟨rfl, rfl⟩
  · intro gw registry st message mid model hmid hreg hproc hmsg
    exact singleSend_first_call gw registry st message mid model hmid hreg hproc hmsg

/-- Witness for Claim C9's amended theorem at a concrete model pick. -/
theorem conversation_invariant_amended_witness :
    ¬ ("gpt-4o" : String) = ""
    ∧ (handleModelChange inFlightState "gpt-4o").chatHistory = []
    ∧ (handleModelChange inFlightState "gpt-4o").currentModel = some "gpt-4o" :=
  ⟨by decide,
   (conversation_invariant_amended.2.1 inFlightState "gpt-4o" (by decide)).1,
   (conversation_invariant_amended.2.1 inFlightState "gpt-4o" (by decide)).2⟩
